import Mathlib

/-!
Verification development for the `desysbackend` finite-element solver
(`backend/solver/*.py`, `backend/models.py`).

The Python source computes with IEEE floats.  The embedding works over `ℚ`
with the following uniform policy, stated once here:

* every comparison of a Euclidean norm against a constant (`np.linalg.norm v <
  tol`, `L < 1e-6`, …) is embedded as the equivalent exact comparison of the
  squared norm against the squared constant (`normSq v < tol * tol`), since both
  sides are non-negative;
* every place where the *value* of a square root, sine or cosine flows into a
  result (element lengths, direction cosines, trigonometric rotation factors,
  the max-displacement metric, the linear solver itself) is abstracted by an
  explicit oracle bundle `FloatEnv`, because those real-valued kernels have no
  exact rational counterpart.  All control flow, list/dictionary bookkeeping,
  load bookkeeping and unit conversions are embedded exactly.

Python dictionaries are embedded as association lists with
insertion-order-preserving insert-or-replace (`dictInsert`), matching CPython
semantics; `next(...)` lookups are `List.find?`.
-/

/-- Three-dimensional vector over `ℚ`, standing for the `(x, y, z)` coordinate
triples of `geometry_utils.py` and for joint coordinates. -/
structure V3 where
  x : ℚ
  y : ℚ
  z : ℚ
deriving DecidableEq, Repr

/-- Componentwise subtraction of 3-vectors. -/
def V3.sub (a b : V3) : V3 := ⟨a.x - b.x, a.y - b.y, a.z - b.z⟩

/-- Componentwise addition of 3-vectors. -/
def V3.add (a b : V3) : V3 := ⟨a.x + b.x, a.y + b.y, a.z + b.z⟩

/-- Scalar multiple of a 3-vector. -/
def V3.smul (t : ℚ) (a : V3) : V3 := ⟨t * a.x, t * a.y, t * a.z⟩

/-- Dot product. -/
def V3.dot (a b : V3) : ℚ := a.x * b.x + a.y * b.y + a.z * b.z

/-- Cross product (`np.cross`). -/
def V3.cross (a b : V3) : V3 :=
  ⟨a.y * b.z - a.z * b.y, a.z * b.x - a.x * b.z, a.x * b.y - a.y * b.x⟩

/-- Squared Euclidean norm; `np.linalg.norm v ^ 2` exactly. -/
def V3.normSq (a : V3) : ℚ := a.x * a.x + a.y * a.y + a.z * a.z

/-- The absolute tolerance `1e-4` used throughout `geometry_utils.py` and the
intersection preprocessor. -/
def geomTol : ℚ := 1 / 10000

/-- Embedding of `geometry_utils.is_point_on_segment`.  Norm comparisons are
done on squares (equivalent for the non-negative norms of the source); the
projection parameter `t = (P−A)·(B−A)/|B−A|²` is exact because the source
divides by `len_ab * len_ab`. -/
def is_point_on_segment (point start stop : V3) (tolerance : ℚ) : Bool :=
  let p := point
  let a := start
  let b := stop
  if V3.normSq (p.sub a) < tolerance * tolerance ∨ V3.normSq (p.sub b) < tolerance * tolerance then
    false
  else
    let ab := b.sub a
    if V3.normSq ab < tolerance * tolerance then
      false
    else
      let ap := p.sub a
      let t := V3.dot ap ab / V3.normSq ab
      if t ≤ tolerance ∨ t ≥ 1 - tolerance then
        false
      else
        let closest := a.add (V3.smul t ab)
        V3.normSq (p.sub closest) < tolerance * tolerance

/-- Embedding of `geometry_utils.get_segment_intersection` (closest point of
approach).  `|u|²` is `normSq u` exactly, so `t1`, `t2` and the candidate
points are exact rationals; norm-versus-tolerance tests are squared.  The
parallelism test uses the literal `1e-4` of the source, not the `tolerance`
parameter. -/
def get_segment_intersection (p1 p2 p3 p4 : V3) (tolerance : ℚ) : Option V3 :=
  let d1 := p2.sub p1
  let d2 := p4.sub p3
  if V3.normSq d1 < tolerance * tolerance ∨ V3.normSq d2 < tolerance * tolerance then
    none
  else
    let u := V3.cross d1 d2
    if V3.normSq u < (1 / 10000 : ℚ) * (1 / 10000) then
      none
    else
      let v := p3.sub p1
      let t1 := V3.dot v (V3.cross d2 u) / V3.normSq u
      let t2 := V3.dot v (V3.cross d1 u) / V3.normSq u
      if tolerance < t1 ∧ t1 < 1 - tolerance ∧ tolerance < t2 ∧ t2 < 1 - tolerance then
        let c1 := p1.add (V3.smul t1 d1)
        let c2 := p3.add (V3.smul t2 d2)
        if V3.normSq (c1.sub c2) < tolerance * tolerance then some c1 else none
      else
        none

/-- The point-on-segment predicate exactly as the specification words it
(claim C9): it demands `|B−A| > τ` strictly, expressed on squares. -/
def onSegmentSpec (p a b : V3) (tol : ℚ) : Prop :=
  V3.normSq (b.sub a) > tol * tol ∧
  V3.normSq (p.sub a) ≥ tol * tol ∧
  V3.normSq (p.sub b) ≥ tol * tol ∧
  (tol < V3.dot (p.sub a) (b.sub a) / V3.normSq (b.sub a) ∧
    V3.dot (p.sub a) (b.sub a) / V3.normSq (b.sub a) < 1 - tol) ∧
  V3.normSq (p.sub ((a.add (V3.smul (V3.dot (p.sub a) (b.sub a) / V3.normSq (b.sub a)) (b.sub a))))) < tol * tol

instance (p a b : V3) (tol : ℚ) : Decidable (onSegmentSpec p a b tol) := by
  unfold onSegmentSpec; infer_instance

/-! ### Data model (`backend/models.py`), restricted to the fields the solver
reads.  Floats become `ℚ`; optional fields keep their optionality. -/

/-- Six boolean restraint flags (`models.Restraint`). -/
structure Restraint where
  ux : Bool
  uy : Bool
  uz : Bool
  rx : Bool
  ry : Bool
  rz : Bool
deriving DecidableEq, Repr

/-- A joint (`models.Joint`): integer id, coordinates, optional restraint. -/
structure Joint where
  id : Int
  x : ℚ
  y : ℚ
  z : ℚ
  restraint : Option Restraint := none
deriving DecidableEq, Repr

/-- Coordinates of a joint as a `V3`. -/
def Joint.coords (j : Joint) : V3 := ⟨j.x, j.y, j.z⟩

/-- A frame element (`models.Frame`). -/
structure Frame where
  id : Int
  jointI : Int
  jointJ : Int
  sectionId : Option String := none
  orientation : ℚ := 0
  offsetY : ℚ := 0
  offsetZ : ℚ := 0
deriving DecidableEq, Repr

/-- Section properties (`models.SectionProperties`), the fields the solver
reads. -/
structure SectionProperties where
  A : ℚ
  Iy : ℚ
  Iz : ℚ
  J : ℚ
deriving DecidableEq, Repr

/-- A frame section (`models.FrameSection`), the fields the solver reads. -/
structure FrameSection where
  id : String
  materialId : String
  properties : SectionProperties
deriving DecidableEq, Repr

/-- A material (`models.Material`), the fields the solver reads. -/
structure Material where
  id : String
  E : ℚ
  G : ℚ
  density : ℚ
deriving DecidableEq, Repr

/-- A load pattern (`models.LoadPattern`); the optional `selfWeight` flag
defaults to `False` in the source. -/
structure LoadPattern where
  id : String
  selfWeight : Bool := false
deriving DecidableEq, Repr

/-- One `(patternId, scale)` entry of a load case. -/
structure LoadCasePattern where
  patternId : String
  scale : ℚ
deriving DecidableEq, Repr

/-- A load case (`models.LoadCase`). -/
structure LoadCase where
  id : String
  name : String
  patterns : List LoadCasePattern
deriving DecidableEq, Repr

/-- One `(caseId, scale)` entry of a load combination. -/
structure LoadCombinationCase where
  caseId : String
  scale : ℚ
deriving DecidableEq, Repr

/-- A load combination (`models.LoadCombination`). -/
structure LoadCombination where
  id : String
  name : String
  cases : List LoadCombinationCase
deriving DecidableEq, Repr

/-- A point load (`models.PointLoad`). -/
structure PointLoad where
  id : String
  jointId : Int
  patternId : String
  fx : ℚ
  fy : ℚ
  fz : ℚ
  mx : ℚ
  my : ℚ
  mz : ℚ
deriving DecidableEq, Repr

/-- A distributed frame load (`models.DistributedFrameLoad`). -/
structure DistributedFrameLoad where
  id : String
  frameId : Int
  patternId : String
  direction : String
  startMagnitude : ℚ
  endMagnitude : ℚ
  startDistance : ℚ
  endDistance : ℚ
deriving DecidableEq, Repr

/-- The structural model (`models.StructuralModel`), restricted to the lists
the solver reads (shells, shell sections and area loads are never consumed by
the solver). -/
structure StructuralModel where
  materials : List Material
  frameSections : List FrameSection
  loadPatterns : List LoadPattern
  loadCases : List LoadCase
  joints : List Joint
  frames : List Frame
  pointLoads : List PointLoad
  distributedFrameLoads : List DistributedFrameLoad
deriving DecidableEq, Repr

/-- Solver configuration (`models.SolverConfig`) with the source defaults. -/
structure SolverConfig where
  meshing_segments : Int := 6
  enable_intersection_check : Bool := true
  use_sparse_solver : Bool := true
deriving DecidableEq, Repr

/-- Per-joint displacement record (`models.JointDisplacement`). -/
structure JointDisplacement where
  jointId : Int
  ux : ℚ
  uy : ℚ
  uz : ℚ
  rx : ℚ
  ry : ℚ
  rz : ℚ
deriving DecidableEq, Repr

/-- Per-joint reaction record (`models.JointReaction`). -/
structure JointReaction where
  jointId : Int
  fx : ℚ
  fy : ℚ
  fz : ℚ
  mx : ℚ
  my : ℚ
  mz : ℚ
deriving DecidableEq, Repr

/-- Internal force sextuple (`models.FrameForces`). -/
structure FrameForces where
  P : ℚ
  V2 : ℚ
  V3 : ℚ
  T : ℚ
  M2 : ℚ
  M3 : ℚ
deriving DecidableEq, Repr

/-- Detailed per-frame result (`models.DetailedFrameResult`). -/
structure DetailedFrameResult where
  stations : List ℚ
  displacements : List JointDisplacement
  forces : List FrameForces
deriving DecidableEq, Repr

/-- Analysis results (`models.AnalysisResults`).  The wall-clock `timestamp`
field is not modelled (it is real time, irrelevant to every claim);
`frameDetailedResults` is the JSON map as an ordered list of
`(stringified id, result)` pairs. -/
structure AnalysisResults where
  loadCaseId : String
  caseName : Option String := none
  displacements : List JointDisplacement
  frameDetailedResults : Option (List (String × DetailedFrameResult)) := none
  reactions : List JointReaction
  isValid : Bool
  maxDisplacement : ℚ
  log : List String
deriving DecidableEq, Repr

/-! ### Python dictionaries as ordered association lists. -/

/-- CPython dict assignment `d[k] = v`: replace in place when the key exists
(keeping its original position), else append.  Keys stay pairwise distinct by
construction. -/
def dictInsert {κ ν : Type} [DecidableEq κ] (l : List (κ × ν)) (k : κ) (v : ν) :
    List (κ × ν) :=
  if l.any (fun e => decide (e.1 = k)) then
    l.map (fun e => if e.1 = k then (k, v) else e)
  else
    l ++ [(k, v)]

/-- CPython dict lookup `d.get(k)`: the unique entry with the key (first
match). -/
def dictGet {κ ν : Type} [DecidableEq κ] (l : List (κ × ν)) (k : κ) : Option ν :=
  (l.find? (fun e => decide (e.1 = k))).map (·.2)

/-! ### Matrices, vectors and assembly (`backend/solver/matrix_utils.py`). -/

/-- Global matrices as total rational-valued index functions (only indices
below the DOF count are ever read). -/
abbrev MatQ : Type := ℕ → ℕ → ℚ

/-- Global vectors as total rational-valued index functions. -/
abbrev VecQ : Type := ℕ → ℚ

/-- The zero matrix (`np.zeros((n, n))` / empty `lil_matrix`). -/
def zeroMat : MatQ := fun _ _ => 0

/-- The zero vector (`np.zeros n`). -/
def zeroVec : VecQ := fun _ => 0

/-- Add `v` to entry `i` of a vector. -/
def vecAdd (F : VecQ) (i : ℕ) (v : ℚ) : VecQ :=
  fun d => if d = i then F i + v else F d

/-- One scatter list for a 12×12 element matrix: the row-major sequence of
`((row dof, col dof), value)` writes performed by both assembly loops. -/
def pairList (dofs : List ℕ) (k : ℕ → ℕ → ℚ) : List ((ℕ × ℕ) × ℚ) :=
  (List.range dofs.length).flatMap fun i =>
    (List.range dofs.length).map fun j => ((dofs.getD i 0, dofs.getD j 0), k i j)

/-- Numpy fancy-indexed `global_k[np.ix_(dofs, dofs)] += local_k`
(`matrix_utils.assemble_global`): all reads gather from the matrix as it was
before the statement, duplicate cells keep the last write. -/
def writeCells (K : MatQ) (l : List ((ℕ × ℕ) × ℚ)) : MatQ :=
  l.foldl (fun acc e => fun r c =>
    if r = e.1.1 ∧ c = e.1.2 then K e.1.1 e.1.2 + e.2 else acc r c) K

/-- The explicit double loop of `matrix_utils.assemble_sparse`: sequential
`global_k[row, col] += local_k[i, j]` updates reading the current state. -/
def addCells (K : MatQ) (l : List ((ℕ × ℕ) × ℚ)) : MatQ :=
  l.foldl (fun acc e => fun r c =>
    if r = e.1.1 ∧ c = e.1.2 then acc e.1.1 e.1.2 + e.2 else acc r c) K

/-- `matrix_utils.assemble_global`. -/
def assemble_global (K : MatQ) (k : ℕ → ℕ → ℚ) (dofs : List ℕ) : MatQ :=
  writeCells K (pairList dofs k)

/-- `matrix_utils.assemble_sparse`. -/
def assemble_sparse (K : MatQ) (k : ℕ → ℕ → ℚ) (dofs : List ℕ) : MatQ :=
  addCells K (pairList dofs k)

/-- Oracle bundle for the floating-point kernels of the source that have no
exact rational counterpart (see the header comment).  `directSolve` models
`np.linalg.solve`, with `none` standing for a raised
`numpy.linalg.LinAlgError`; `lstsq` models `np.linalg.lstsq` (minimum-norm
least squares); `spSolve` models `scipy.sparse.linalg.spsolve`, with `none`
standing for a raised exception; `sqrtQ`, `cosDeg`, `sinDeg` model
`math.sqrt` and `math.cos`/`math.sin` of an angle given in degrees (the
source multiplies by `π/180` first). -/
structure FloatEnv where
  sqrtQ : ℚ → ℚ
  cosDeg : ℚ → ℚ
  sinDeg : ℚ → ℚ
  directSolve : MatQ → ℕ → VecQ → Option VecQ
  lstsq : MatQ → ℕ → VecQ → VecQ
  spSolve : MatQ → ℕ → VecQ → Option VecQ

/-- `matrix_utils.solve_linear_system`: try the direct solver; on
`LinAlgError` print a warning to standard output (not to any log) and return
the least-squares solution. -/
def solve_linear_system (env : FloatEnv) (A : MatQ) (n : ℕ) (b : VecQ) : VecQ :=
  match env.directSolve A n b with
  | some x => x
  | none => env.lstsq A n b

/-- `matrix_utils.solve_sparse` (scipy available, CSR conversion): try
`spsolve`; on failure print a warning to standard output and fall back to
`solve_linear_system` on the densified matrix. -/
def solve_sparse (env : FloatEnv) (A : MatQ) (n : ℕ) (b : VecQ) : VecQ :=
  match env.spSolve A n b with
  | some x => x
  | none => solve_linear_system env A n b

/-! ### Element library (`backend/solver/frame_element.py`). -/

/-- The entry pattern of the 12×12 local stiffness matrix, one case per
assignment of `frame_element_stiffness` in the source (unassigned entries of
the `np.zeros((12, 12))` start value are `0`). -/
def kEntry (EA_L GJ_L EIz_L3 EIz_L2 EIz_L EIy_L3 EIy_L2 EIy_L : ℚ) :
    ℕ → ℕ → ℚ
  | 0, 0 => EA_L
  | 0, 6 => -EA_L
  | 6, 0 => -EA_L
  | 6, 6 => EA_L
  | 3, 3 => GJ_L
  | 3, 9 => -GJ_L
  | 9, 3 => -GJ_L
  | 9, 9 => GJ_L
  | 1, 1 => 12 * EIz_L3
  | 1, 5 => 6 * EIz_L2
  | 1, 7 => -12 * EIz_L3
  | 1, 11 => 6 * EIz_L2
  | 5, 1 => 6 * EIz_L2
  | 5, 5 => 4 * EIz_L
  | 5, 7 => -6 * EIz_L2
  | 5, 11 => 2 * EIz_L
  | 7, 1 => -12 * EIz_L3
  | 7, 5 => -6 * EIz_L2
  | 7, 7 => 12 * EIz_L3
  | 7, 11 => -6 * EIz_L2
  | 11, 1 => 6 * EIz_L2
  | 11, 5 => 2 * EIz_L
  | 11, 7 => -6 * EIz_L2
  | 11, 11 => 4 * EIz_L
  | 2, 2 => 12 * EIy_L3
  | 2, 4 => -6 * EIy_L2
  | 2, 8 => -12 * EIy_L3
  | 2, 10 => -6 * EIy_L2
  | 4, 2 => -6 * EIy_L2
  | 4, 4 => 4 * EIy_L
  | 4, 8 => 6 * EIy_L2
  | 4, 10 => 2 * EIy_L
  | 8, 2 => -12 * EIy_L3
  | 8, 4 => 6 * EIy_L2
  | 8, 8 => 12 * EIy_L3
  | 8, 10 => 6 * EIy_L2
  | 10, 2 => -6 * EIy_L2
  | 10, 4 => 2 * EIy_L
  | 10, 8 => 6 * EIy_L2
  | 10, 10 => 4 * EIy_L
  | _, _ => 0

/-- `frame_element.frame_element_stiffness`.  Raises (`Except.error`) on
`L < 1e-6`, embedded as the exact squared comparison `L² < 1e-12`; the value
of `L = math.sqrt(L²)` itself is taken from the oracle. -/
def frame_element_stiffness (env : FloatEnv) (joint_i joint_j : Joint)
    (sec : FrameSection) (material : Material) :
    Except String (ℕ → ℕ → ℚ) :=
  let dx := joint_j.x - joint_i.x
  let dy := joint_j.y - joint_i.y
  let dz := joint_j.z - joint_i.z
  let LSq := dx * dx + dy * dy + dz * dz
  if LSq < (1 / 1000000 : ℚ) * (1 / 1000000) then
    Except.error "Frame element has zero length"
  else
    let L := env.sqrtQ LSq
    let E := material.E * 1000000
    let G := material.G * 1000000
    let A := sec.properties.A
    let Iy := sec.properties.Iy
    let Iz := sec.properties.Iz
    let J := sec.properties.J
    Except.ok (kEntry ((E * A) / L) ((G * J) / L)
      ((E * Iz) / (L * L * L)) ((E * Iz) / (L * L)) ((E * Iz) / L)
      ((E * Iy) / (L * L * L)) ((E * Iy) / (L * L)) ((E * Iy) / L))

/-- A 3×3 rotation matrix given by its nine entries, row-major. -/
structure Mat3 where
  m00 : ℚ
  m01 : ℚ
  m02 : ℚ
  m10 : ℚ
  m11 : ℚ
  m12 : ℚ
  m20 : ℚ
  m21 : ℚ
  m22 : ℚ
deriving DecidableEq, Repr

/-- `frame_element.frame_transformation_matrix`, returning the 3×3 direction
cosine matrix `R` (the 12×12 `T` is its fourfold block-diagonal replication,
`blockDiag4`).  Direction cosines divide by the oracle value of `L`; the
vertical-member test `|cy| > 0.99` therefore also reads the oracle. -/
def frame_transformation_matrix (env : FloatEnv) (joint_i joint_j : Joint)
    (orientation : ℚ) : Except String Mat3 :=
  let dx := joint_j.x - joint_i.x
  let dy := joint_j.y - joint_i.y
  let dz := joint_j.z - joint_i.z
  let LSq := dx * dx + dy * dy + dz * dz
  if LSq < (1 / 1000000 : ℚ) * (1 / 1000000) then
    Except.error "Frame element has zero length"
  else
    let L := env.sqrtQ LSq
    let cx := dx / L
    let cy := dy / L
    let cz := dz / L
    let ly0 : ℚ × ℚ × ℚ :=
      if |cy| > 99 / 100 then
        (1, 0, 0)
      else
        let temp := env.sqrtQ (cx * cx + cz * cz)
        (-cx * cy / temp, temp, -cz * cy / temp)
    let lz0 : ℚ × ℚ × ℚ :=
      (cy * ly0.2.2 - cz * ly0.2.1, cz * ly0.1 - cx * ly0.2.2,
        cx * ly0.2.1 - cy * ly0.1)
    let rot : (ℚ × ℚ × ℚ) × (ℚ × ℚ × ℚ) :=
      if |orientation| > 1 / 1000000 then
        let c := env.cosDeg orientation
        let s := env.sinDeg orientation
        ((c * ly0.1 - s * lz0.1, c * ly0.2.1 - s * lz0.2.1,
            c * ly0.2.2 - s * lz0.2.2),
          (s * ly0.1 + c * lz0.1, s * ly0.2.1 + c * lz0.2.1,
            s * ly0.2.2 + c * lz0.2.2))
      else
        (ly0, lz0)
    Except.ok ⟨cx, cy, cz, rot.1.1, rot.1.2.1, rot.1.2.2,
      rot.2.1, rot.2.2.1, rot.2.2.2⟩

/-- Entry `(i, j)` of the block-diagonal 12×12 transformation `T` built from a
3×3 rotation (the `for i in range(4)` block fill of the source). -/
def blockDiag4 (R : Mat3) : ℕ → ℕ → ℚ := fun i j =>
  if i / 3 = j / 3 then
    match i % 3, j % 3 with
    | 0, 0 => R.m00
    | 0, 1 => R.m01
    | 0, 2 => R.m02
    | 1, 0 => R.m10
    | 1, 1 => R.m11
    | 1, 2 => R.m12
    | 2, 0 => R.m20
    | 2, 1 => R.m21
    | 2, 2 => R.m22
    | _, _ => 0
  else 0

/-- Product of two 12×12 matrices held as index functions. -/
def mat12Mul (A B : ℕ → ℕ → ℚ) : ℕ → ℕ → ℚ :=
  fun i j => ∑ l ∈ Finset.range 12, A i l * B l j

/-- Transpose of a matrix held as an index function. -/
def matTranspose (A : ℕ → ℕ → ℚ) : ℕ → ℕ → ℚ := fun i j => A j i

/-- `frame_element.transform_stiffness_to_global`: `K_global = Tᵀ·K_local·T`. -/
def transform_stiffness_to_global (local_k T : ℕ → ℕ → ℚ) : ℕ → ℕ → ℚ :=
  mat12Mul (mat12Mul (matTranspose T) local_k) T

/-! ### Intersection preprocessor (`fea_solver.preprocess_intersections`).
Exceptions that escape the preprocessor (`KeyError` from `joints_map[...]`,
`StopIteration` from an exhausted `next(...)`) are uncaught in the source —
the preprocessor runs before the `try` block of `analyze_structure` — so the
embedding is `Except`-valued, with `Except.error` standing for an uncaught
Python exception. -/

/-- Pending splits per frame id: the `frame_splits` dictionary.  The first
component of each split is the sort key; the source sorts by
`t = dist/length` (a float), the embedding stores the order-isomorphic exact
square `dist²/length²`. -/
abbrev SplitsMap : Type := List (Int × List (ℚ × V3))

/-- The dictionary comprehension `{j.id: j for j in model.joints}` (later
duplicates overwrite earlier ones). -/
def jointsMapOf (joints : List Joint) : List (Int × Joint) :=
  joints.foldl (fun d j => dictInsert d j.id j) []

/-- Python `dict[key]` on the joints map: raises `KeyError` when absent. -/
def jointsMapGet (d : List (Int × Joint)) (k : Int) : Except String Joint :=
  match dictGet d k with
  | some j => Except.ok j
  | none => Except.error "KeyError"

/-- The local helper `add_split(f_id, pt)` of `preprocess_intersections`:
ensure the entry exists, drop the point if a pending split is within `1e-4`
of it, locate the frame (first match; silently do nothing when absent),
compute the sort key from the distance to `jointI`, and append. -/
def add_split (m : StructuralModel) (joints_map : List (Int × Joint))
    (splits : SplitsMap) (f_id : Int) (pt : V3) : Except String SplitsMap :=
  let splits1 : SplitsMap :=
    if splits.any (fun e => decide (e.1 = f_id)) then splits else splits ++ [(f_id, [])]
  let entry := (dictGet splits1 f_id).getD []
  if entry.any (fun e => decide (V3.normSq (pt.sub e.2) < geomTol * geomTol)) then
    Except.ok splits1
  else
    match m.frames.find? (fun f => decide (f.id = f_id)) with
    | none => Except.ok splits1
    | some frame => do
      let jI ← jointsMapGet joints_map frame.jointI
      let jJ ← jointsMapGet joints_map frame.jointJ
      let lengthSq := V3.normSq (jJ.coords.sub jI.coords)
      let distSq := V3.normSq (pt.sub jI.coords)
      let tKey := if lengthSq > 0 then distSq / lengthSq else 0
      Except.ok (dictInsert splits1 f_id (entry ++ [(tKey, pt)]))

/-- Pass A of the preprocessor: every (joint, frame) pair with the joint not
an endpoint of the frame; enqueue a split when `is_point_on_segment` holds. -/
def nodeOnFramePass (m : StructuralModel) (joints_map : List (Int × Joint))
    (splits : SplitsMap) : Except String SplitsMap :=
  m.joints.foldlM (fun s j =>
    m.frames.foldlM (fun s f =>
      if f.jointI = j.id ∨ f.jointJ = j.id then
        Except.ok s
      else do
        let jI ← jointsMapGet joints_map f.jointI
        let jJ ← jointsMapGet joints_map f.jointJ
        if is_point_on_segment j.coords jI.coords jJ.coords geomTol then
          add_split m joints_map s f.id j.coords
        else
          Except.ok s) s) splits

/-- All unordered frame pairs in the double-loop order of the source
(`for i … for k in range(i+1, …)`). -/
def framePairs : List Frame → List (Frame × Frame)
  | [] => []
  | f :: rest => rest.map (fun g => (f, g)) ++ framePairs rest

/-- Pass B of the preprocessor: for every frame pair sharing no endpoint
joint id, enqueue the segment intersection (if any) on both frames.
Coordinates are looked up before the common-joint test, as in the source. -/
def frameFramePass (m : StructuralModel) (joints_map : List (Int × Joint))
    (splits : SplitsMap) : Except String SplitsMap :=
  (framePairs m.frames).foldlM (fun s p => do
    let f1 := p.1
    let f2 := p.2
    let jI1 ← jointsMapGet joints_map f1.jointI
    let jJ1 ← jointsMapGet joints_map f1.jointJ
    let jI2 ← jointsMapGet joints_map f2.jointI
    let jJ2 ← jointsMapGet joints_map f2.jointJ
    if f1.jointI = f2.jointI ∨ f1.jointI = f2.jointJ ∨
        f1.jointJ = f2.jointI ∨ f1.jointJ = f2.jointJ then
      Except.ok s
    else
      match get_segment_intersection jI1.coords jJ1.coords jI2.coords jJ2.coords geomTol with
      | some pt => do
        let s1 ← add_split m joints_map s f1.id pt
        add_split m joints_map s1 f2.id pt
      | none => Except.ok s) splits

/-- Both detection passes: the `frame_splits` dictionary as it stands when
the split-application phase starts. -/
def computeFrameSplits (m : StructuralModel) : Except String SplitsMap := do
  let jm := jointsMapOf m.joints
  let s1 ← nodeOnFramePass m jm []
  frameFramePass m jm s1

/-- Python `max(list)` over integers (the source only calls it on non-empty
lists; the `[]` case is unreachable). -/
def listMaxInt : List Int → Int
  | [] => 0
  | x :: xs => xs.foldl max x

/-- Stable insertion by sort key, placing the new element after all existing
elements with key `≤` its own. -/
def sortedInsertKey (e : ℚ × V3) : List (ℚ × V3) → List (ℚ × V3)
  | [] => [e]
  | x :: xs => if x.1 ≤ e.1 then x :: sortedInsertKey e xs else e :: x :: xs

/-- Stable sort by key: the embedding of `splits.sort(key=lambda x: x[0])`
(Python's sort is stable, and the stored key is an order-isomorphic image of
the source's). -/
def sortByKey (l : List (ℚ × V3)) : List (ℚ × V3) :=
  l.foldl (fun acc e => sortedInsertKey e acc) []

/-- State threaded through the split-application phase: `result_joints`,
`next_joint_id`, the accumulating `new_frames`, and `next_frame_id`. -/
structure SplitApplySt where
  joints : List Joint
  njid : Int
  frames : List Frame
  nfid : Int
deriving Repr

/-- One iteration of the split-frame loop: for the split point `e.2` reuse a
joint within `1e-4` (first match over the current joint list) or allocate a
fresh one, and emit a sub-frame from the running endpoint `s.2`. -/
def splitStep (original : Frame) (s : SplitApplySt × Int) (e : ℚ × V3) :
    SplitApplySt × Int :=
  let st := s.1
  let cur := s.2
  let pt := e.2
  match st.joints.find? (fun j => decide (V3.normSq (j.coords.sub pt) < geomTol * geomTol)) with
  | some mj =>
    ({ st with
        frames := st.frames ++ [⟨st.nfid, cur, mj.id, original.sectionId,
          original.orientation, original.offsetY, original.offsetZ⟩],
        nfid := st.nfid + 1 }, mj.id)
  | none =>
    let nj : Joint := ⟨st.njid, pt.x, pt.y, pt.z, none⟩
    ({ st with
        joints := st.joints ++ [nj],
        njid := st.njid + 1,
        frames := st.frames ++ [⟨st.nfid, cur, nj.id, original.sectionId,
          original.orientation, original.offsetY, original.offsetZ⟩],
        nfid := st.nfid + 1 }, nj.id)

/-- Walk one split frame: thread `splitStep` over the sorted split points,
then emit the final sub-frame to `jointJ`. -/
def processSplitFrame (original : Frame) (sorted : List (ℚ × V3))
    (st0 : SplitApplySt) : SplitApplySt :=
  let r := sorted.foldl (splitStep original) (st0, original.jointI)
  let st1 := r.1
  let cur1 := r.2
  { st1 with
      frames := st1.frames ++ [⟨st1.nfid, cur1, original.jointJ, original.sectionId,
        original.orientation, original.offsetY, original.offsetZ⟩],
      nfid := st1.nfid + 1 }

/-- Phase C of the preprocessor: keep unsplit frames, then rebuild each split
frame, threading joint and frame id counters in dictionary order. -/
def applySplits (m : StructuralModel) (frame_splits : SplitsMap) :
    Except String StructuralModel :=
  if frame_splits.isEmpty then
    Except.ok m
  else do
    let kept := m.frames.filter (fun f => decide ((dictGet frame_splits f.id).isNone))
    let njid0 : Int := if m.joints.isEmpty then 1 else listMaxInt (m.joints.map (·.id)) + 1
    let nfid0 : Int := listMaxInt (m.frames.map (·.id)) + 1
    let stF ← frame_splits.foldlM (fun st e =>
      match m.frames.find? (fun f => decide (f.id = e.1)) with
      | none => Except.error "StopIteration"
      | some original => Except.ok (processSplitFrame original (sortByKey e.2) st))
      (⟨m.joints, njid0, kept, nfid0⟩ : SplitApplySt)
    Except.ok { m with joints := stF.joints, frames := stF.frames }

/-- `fea_solver.preprocess_intersections`: detect node-on-frame and
frame-frame contacts, then split. -/
def preprocess_intersections (m : StructuralModel) : Except String StructuralModel := do
  let splits ← computeFrameSplits m
  applySplits m splits

/-! ### Mesher and analysis pipeline (`fea_solver.analyze_structure`). -/

/-- `fea_solver.get_default_restraint`. -/
def get_default_restraint : Restraint := ⟨false, false, false, false, false, false⟩

/-- Placeholder joint for (provably in-range) list indexing. -/
def dummyJoint : Joint := ⟨0, 0, 0, 0, none⟩

/-- `GRAVITY = 9.81`. -/
def GRAVITY : ℚ := 981 / 100

/-- Clamp `meshing_segments` to `[1, 20]` (`min(max(n, 1), 20)`), as a
natural number of segments. -/
def clampSegments (n : Int) : ℕ := (min (max n 1) 20).toNat

/-- Meshing state: `solver_joints`, the `joint_id_to_index` dictionary,
`next_internal_joint_id`, `next_internal_frame_id`, `solver_frames`,
`frame_mapping` (id to station joint indices) and the log. -/
structure MeshSt where
  sj : List Joint
  idx : List (Int × ℕ)
  njid : Int
  nfid : Int
  sf : List Frame
  fmap : List (Int × List ℕ)
  log : List String

/-- The initial `joint_id_to_index` dictionary comprehension. -/
def idxDict0 (joints : List Joint) : List (Int × ℕ) :=
  joints.enum.foldl (fun d p => dictInsert d p.2.id p.1) []

/-- One iteration `i` of the interior-joint loop of the mesher: create the
interpolated joint at `t = i/S` with a fresh negative id and a fully-free
restraint, register it, and emit the sub-frame from the previous station. -/
def meshInner (startJ endJ : Joint) (fr : Frame) (S : ℕ) :
    MeshSt × ℕ × List ℕ → ℕ → MeshSt × ℕ × List ℕ := fun s i =>
  let st := s.1
  let prev := s.2.1
  let inds := s.2.2
  let t : ℚ := (i : ℚ) / (S : ℚ)
  let nj : Joint := ⟨st.njid,
    startJ.x + (endJ.x - startJ.x) * t,
    startJ.y + (endJ.y - startJ.y) * t,
    startJ.z + (endJ.z - startJ.z) * t,
    some get_default_restraint⟩
  let newIndex := st.sj.length
  let sub : Frame := ⟨st.nfid, (st.sj.getD prev dummyJoint).id, nj.id,
    fr.sectionId, fr.orientation, fr.offsetY, fr.offsetZ⟩
  ({ st with
      sj := st.sj ++ [nj],
      idx := dictInsert st.idx nj.id newIndex,
      njid := st.njid - 1,
      nfid := st.nfid - 1,
      sf := st.sf ++ [sub] }, newIndex, inds ++ [newIndex])

/-- Mesh a single frame into `S` sub-frames; on an unresolvable endpoint id
log the error and skip the frame (the source's `continue`). -/
def meshFrame (S : ℕ) (st : MeshSt) (fr : Frame) : MeshSt :=
  match dictGet st.idx fr.jointI, dictGet st.idx fr.jointJ with
  | some a, some b =>
    let startJ := st.sj.getD a dummyJoint
    let endJ := st.sj.getD b dummyJoint
    let r := (List.range' 1 (S - 1)).foldl (meshInner startJ endJ fr S) (st, a, [a])
    let st1 := r.1
    let prev := r.2.1
    let inds := r.2.2 ++ [b]
    let lastSub : Frame := ⟨st1.nfid, (st1.sj.getD prev dummyJoint).id, endJ.id,
      fr.sectionId, fr.orientation, fr.offsetY, fr.offsetZ⟩
    { st1 with
        nfid := st1.nfid - 1,
        sf := st1.sf ++ [lastSub],
        fmap := dictInsert st1.fmap fr.id inds }
  | _, _ =>
    { st with log := st.log ++ ["Error: Invalid joints for frame " ++ toString fr.id] }

/-- The whole meshing loop over `model.frames`. -/
def meshAll (S : ℕ) (m : StructuralModel) (log : List String) : MeshSt :=
  m.frames.foldl (meshFrame S) ⟨m.joints, idxDict0 m.joints, -1, -1, [], [], log⟩

/-- First matching frame section (`next((s for s in model.frameSections if
s.id == frame.sectionId), None)`); a `None` section id matches nothing. -/
def sectionFind (m : StructuralModel) (sid : Option String) : Option FrameSection :=
  m.frameSections.find? (fun s => decide (some s.id = sid))

/-- First matching material. -/
def materialFind (m : StructuralModel) (mid : String) : Option Material :=
  m.materials.find? (fun x => decide (x.id = mid))

/-- The twelve global DOF indices of an element between node indices `a` and
`b`. -/
def elementDofs (a b : ℕ) : List ℕ :=
  [6*a, 6*a+1, 6*a+2, 6*a+3, 6*a+4, 6*a+5, 6*b, 6*b+1, 6*b+2, 6*b+3, 6*b+4, 6*b+5]

/-- Assemble one solver frame into the global stiffness: skip on unresolved
node ids or section/material; otherwise local stiffness (which raises on a
degenerate length), transformation, congruence, and the sparse or dense
scatter. -/
def assembleOne (env : FloatEnv) (m : StructuralModel) (sj : List Joint)
    (idx : List (Int × ℕ)) (use_sparse : Bool) (K : MatQ) (fr : Frame) :
    Except String MatQ :=
  match dictGet idx fr.jointI, dictGet idx fr.jointJ with
  | some a, some b =>
    let joint_i := sj.getD a dummyJoint
    let joint_j := sj.getD b dummyJoint
    match sectionFind m fr.sectionId with
    | none => Except.ok K
    | some sec =>
      match materialFind m sec.materialId with
      | none => Except.ok K
      | some mat => do
        let k_local ← frame_element_stiffness env joint_i joint_j sec mat
        let R ← frame_transformation_matrix env joint_i joint_j fr.orientation
        let k_global := transform_stiffness_to_global k_local (blockDiag4 R)
        let dofs := elementDofs a b
        Except.ok (if use_sparse then assemble_sparse K k_global dofs
          else assemble_global K k_global dofs)
  | _, _ => Except.ok K

/-- The stiffness assembly loop over `solver_frames`. -/
def assembleElements (env : FloatEnv) (m : StructuralModel) (sj : List Joint)
    (idx : List (Int × ℕ)) (use_sparse : Bool) (frames : List Frame) (K : MatQ) :
    Except String MatQ :=
  frames.foldlM (assembleOne env m sj idx use_sparse) K

/-- Self-weight of one solver frame: `w = ρ·A·g`, total weight `w·L`, half to
each endpoint in global `−Y`. -/
def selfWeightOne (env : FloatEnv) (m : StructuralModel) (sj : List Joint)
    (idx : List (Int × ℕ)) (scale : ℚ) (F : VecQ) (fr : Frame) : VecQ :=
  match dictGet idx fr.jointI, dictGet idx fr.jointJ with
  | some a, some b =>
    match sectionFind m fr.sectionId with
    | none => F
    | some sec =>
      match materialFind m sec.materialId with
      | none => F
      | some mat =>
        let w := mat.density * sec.properties.A * GRAVITY
        let joint_i := sj.getD a dummyJoint
        let joint_j := sj.getD b dummyJoint
        let L := env.sqrtQ (V3.normSq (joint_j.coords.sub joint_i.coords))
        let nodal := (w * L / 2) * scale
        vecAdd (vecAdd F (6*a+1) (-nodal)) (6*b+1) (-nodal)
  | _, _ => F

/-- Point loads of one pattern: six scaled components (kN to N) added at the
joint's six DOFs. -/
def applyPointLoads (m : StructuralModel) (idx : List (Int × ℕ))
    (pat : LoadPattern) (scale : ℚ) (F0 : VecQ) : VecQ :=
  m.pointLoads.foldl (fun F load =>
    if load.patternId ≠ pat.id then F
    else
      match dictGet idx load.jointId with
      | none => F
      | some j =>
        vecAdd (vecAdd (vecAdd (vecAdd (vecAdd (vecAdd F
          (6*j) (load.fx * scale * 1000))
          (6*j+1) (load.fy * scale * 1000))
          (6*j+2) (load.fz * scale * 1000))
          (6*j+3) (load.mx * scale * 1000))
          (6*j+4) (load.my * scale * 1000))
          (6*j+5) (load.mz * scale * 1000)) F0

/-- Trapezoid decomposition of one solver sub-segment `[ratio_a, ratio_b]` of
a distributed load (the body of the innermost loop of the distributed-load
case): skip on no overlap, clip, interpolate with the `max(0.0001, …)`
denominator clamp, and add half of the directional total force to the three
translational DOFs of each endpoint node. -/
def distributeSegmentForce (startRatio endRatio startMag endMag scale
    total_length ratio_a ratio_b : ℚ) (dir : ℚ × ℚ × ℚ) (idx_a idx_b : ℕ)
    (F : VecQ) : VecQ :=
  if ratio_b ≤ startRatio ∨ ratio_a ≥ endRatio then F
  else
    let active_start := max ratio_a startRatio
    let active_end := min ratio_b endRatio
    let load_range := max (1 / 10000) (endRatio - startRatio)
    let w_start := startMag + (endMag - startMag) * ((active_start - startRatio) / load_range)
    let w_end := startMag + (endMag - startMag) * ((active_end - startRatio) / load_range)
    let w_avg := (w_start + w_end) / 2
    let segment_len := (active_end - active_start) * total_length
    let total_force := w_avg * segment_len * scale * 1000
    let f_node := total_force / 2
    vecAdd (vecAdd (vecAdd (vecAdd (vecAdd (vecAdd F
      (6*idx_a) (dir.1 * f_node))
      (6*idx_a+1) (dir.2.1 * f_node))
      (6*idx_a+2) (dir.2.2 * f_node))
      (6*idx_b) (dir.1 * f_node))
      (6*idx_b+1) (dir.2.1 * f_node))
      (6*idx_b+2) (dir.2.2 * f_node)

/-- Direction vector of a distributed load.  Local directions are built from
the *parent* frame's endpoint joints (original geometry), normalised with
oracle square roots, then rotated by the frame orientation. -/
def loadDirection (env : FloatEnv) (load : DistributedFrameLoad) (fr : Frame)
    (start_joint end_joint : Joint) : ℚ × ℚ × ℚ :=
  if load.direction.startsWith "Global" then
    ((if load.direction = "GlobalX" then 1 else 0),
     (if load.direction = "GlobalY" then 1 else 0),
     (if load.direction = "GlobalZ" then 1 else 0))
  else if load.direction = "Gravity" then
    (0, -1, 0)
  else if load.direction.startsWith "Local" then
    let d := end_joint.coords.sub start_joint.coords
    let L_vec := env.sqrtQ (V3.normSq d)
    let lx : V3 := ⟨d.x / L_vec, d.y / L_vec, d.z / L_vec⟩
    let up : V3 := if |lx.y| > 99 / 100 then ⟨1, 0, 0⟩ else ⟨0, 1, 0⟩
    let lz0 := lx.cross up
    let lzn := env.sqrtQ (V3.normSq lz0)
    let lz : V3 := ⟨lz0.x / lzn, lz0.y / lzn, lz0.z / lzn⟩
    let ly := lz.cross lx
    let c := env.cosDeg fr.orientation
    let s := env.sinDeg fr.orientation
    let ly_rot : V3 := ⟨ly.x * c + lz.x * s, ly.y * c + lz.y * s, ly.z * c + lz.z * s⟩
    let lz_rot : V3 := ⟨-ly.x * s + lz.x * c, -ly.y * s + lz.y * c, -ly.z * s + lz.z * c⟩
    if load.direction = "LocalX" then (lx.x, lx.y, lx.z)
    else if load.direction = "LocalY" then (ly_rot.x, ly_rot.y, ly_rot.z)
    else if load.direction = "LocalZ" then (lz_rot.x, lz_rot.y, lz_rot.z)
    else (0, 0, 0)
  else (0, 0, 0)

/-- One distributed load: find the parent frame by id in the (possibly
preprocessed) model — a load whose frame id no longer exists is skipped
silently — then decompose it over the solver sub-segments recorded in
`frame_mapping`.  An unresolvable endpoint joint reproduces the uncaught
`AttributeError` text of `None.x`. -/
def applyDistLoadOne (env : FloatEnv) (m : StructuralModel)
    (fmap : List (Int × List ℕ)) (sj : List Joint) (scale : ℚ) (F : VecQ)
    (load : DistributedFrameLoad) : Except String VecQ :=
  match m.frames.find? (fun f => decide (f.id = load.frameId)) with
  | none => Except.ok F
  | some fr =>
    match dictGet fmap fr.id with
    | none => Except.ok F
    | some indices => do
      let start_joint ← match m.joints.find? (fun j => decide (j.id = fr.jointI)) with
        | some j => Except.ok j
        | none => Except.error "'NoneType' object has no attribute 'x'"
      let end_joint ← match m.joints.find? (fun j => decide (j.id = fr.jointJ)) with
        | some j => Except.ok j
        | none => Except.error "'NoneType' object has no attribute 'x'"
      let total_length := env.sqrtQ (V3.normSq (end_joint.coords.sub start_joint.coords))
      Except.ok ((List.range (indices.length - 1)).foldl (fun F i =>
        let idx_a := indices.getD i 0
        let idx_b := indices.getD (i + 1) 0
        let node_a := sj.getD idx_a dummyJoint
        let node_b := sj.getD idx_b dummyJoint
        let dist_a := env.sqrtQ (V3.normSq (node_a.coords.sub start_joint.coords))
        let dist_b := env.sqrtQ (V3.normSq (node_b.coords.sub start_joint.coords))
        let ratio_a := dist_a / total_length
        let ratio_b := dist_b / total_length
        let dir := loadDirection env load fr start_joint end_joint
        distributeSegmentForce load.startDistance load.endDistance
          load.startMagnitude load.endMagnitude scale total_length
          ratio_a ratio_b dir idx_a idx_b F) F)

/-- All distributed loads of one pattern. -/
def applyDistributedLoads (env : FloatEnv) (m : StructuralModel)
    (fmap : List (Int × List ℕ)) (sj : List Joint) (pat : LoadPattern)
    (scale : ℚ) (F0 : VecQ) : Except String VecQ :=
  m.distributedFrameLoads.foldlM (fun F load =>
    if load.patternId ≠ pat.id then Except.ok F
    else applyDistLoadOne env m fmap sj scale F load) F0

/-- The load-application loop over the load case's `(pattern, scale)` pairs:
self-weight (when flagged) over the solver frames, then point loads, then
distributed loads. -/
def applyPatterns (env : FloatEnv) (m : StructuralModel) (sj : List Joint)
    (idx : List (Int × ℕ)) (fmap : List (Int × List ℕ)) (sf : List Frame)
    (patterns : List LoadCasePattern) (F0 : VecQ) : Except String VecQ :=
  patterns.foldlM (fun F pc =>
    match m.loadPatterns.find? (fun p => decide (p.id = pc.patternId)) with
    | none => Except.ok F
    | some pattern =>
      let scale := pc.scale
      let F1 := if pattern.selfWeight then
          sf.foldl (selfWeightOne env m sj idx scale) F
        else F
      let F2 := applyPointLoads m idx pattern scale F1
      applyDistributedLoads env m fmap sj pattern scale F2) F0

/-- Free-DOF list: for each solver joint in index order, each of the six DOFs
whose restraint flag is `false` (`joint.restraint or get_default_restraint()`). -/
def computeFreeDofs (sj : List Joint) : List ℕ :=
  (List.range sj.length).foldl (fun acc i =>
    let r := ((sj.getD i dummyJoint).restraint).getD get_default_restraint
    acc ++ (if r.ux then [] else [6*i]) ++ (if r.uy then [] else [6*i+1]) ++
      (if r.uz then [] else [6*i+2]) ++ (if r.rx then [] else [6*i+3]) ++
      (if r.ry then [] else [6*i+4]) ++ (if r.rz then [] else [6*i+5])) []

/-- Apply a 3×3 rotation to a 3-vector (`fea_solver.transform3`). -/
def transform3 (v : V3) (R : Mat3) : V3 :=
  ⟨R.m00 * v.x + R.m01 * v.y + R.m02 * v.z,
   R.m10 * v.x + R.m11 * v.y + R.m12 * v.z,
   R.m20 * v.x + R.m21 * v.y + R.m22 * v.z⟩

/-- `fea_solver.calculate_segment_forces`: recover internal forces of one
sub-segment from its endpoint displacement vectors (passed as translation and
rotation triples), with the special-cased vertical rotation matrix.  Returns
the `(start, end)` force pair, already scaled to kN / kN·m. -/
def calculate_segment_forces (env : FloatEnv) (node_a node_b : Joint)
    (u_a u_b : V3 × V3) (sec : FrameSection) (mat : Material)
    (orientation : ℚ) : FrameForces × FrameForces :=
  let LSq := V3.normSq (node_b.coords.sub node_a.coords)
  let zero : FrameForces := ⟨0, 0, 0, 0, 0, 0⟩
  if LSq < (1 / 10000 : ℚ) * (1 / 10000) then (zero, zero)
  else
    let L := env.sqrtQ LSq
    let cx := (node_b.x - node_a.x) / L
    let cy := (node_b.y - node_a.y) / L
    let cz := (node_b.z - node_a.z) / L
    let cB := env.cosDeg orientation
    let sB := env.sinDeg orientation
    let R : Mat3 :=
      if |cx| < 1 / 1000 ∧ |cz| < 1 / 1000 then
        if cy > 0 then ⟨0, 1, 0, -cB, 0, sB, sB, 0, cB⟩
        else ⟨0, -1, 0, cB, 0, sB, -sB, 0, cB⟩
      else
        let C1 := env.sqrtQ (cx * cx + cz * cz)
        ⟨cx, cy, cz,
          (-cx * cy * cB - cz * sB) / C1, C1 * cB, (-cy * cz * cB + cx * sB) / C1,
          (cx * cy * sB - cz * cB) / C1, -C1 * sB, (cy * cz * sB + cx * cB) / C1⟩
    let uaT := transform3 u_a.1 R
    let raT := transform3 u_a.2 R
    let ubT := transform3 u_b.1 R
    let rbT := transform3 u_b.2 R
    let E := mat.E * 1000000
    let G := mat.G * 1000000
    let A := sec.properties.A
    let Ix := sec.properties.J
    let Iy := sec.properties.Iy
    let Iz := sec.properties.Iz
    let L2 := L * L
    let L3 := L * L * L
    let k_bz_1 := 12 * E * Iz / L3
    let k_bz_2 := 6 * E * Iz / L2
    let k_bz_3 := 4 * E * Iz / L
    let k_bz_4 := 2 * E * Iz / L
    let P := (E * A / L) * (ubT.x - uaT.x)
    let T := (G * Ix / L) * (rbT.x - raT.x)
    let Fy_A := k_bz_1 * uaT.y + k_bz_2 * raT.z - k_bz_1 * ubT.y + k_bz_2 * rbT.z
    let Mz_A := k_bz_2 * uaT.y + k_bz_3 * raT.z - k_bz_2 * ubT.y + k_bz_4 * rbT.z
    let V2 := Fy_A
    let M3 := -Mz_A
    let Fz_A := (12 * E * Iy / L3) * uaT.z + (-6 * E * Iy / L2) * raT.y +
      (-12 * E * Iy / L3) * ubT.z + (-6 * E * Iy / L2) * rbT.y
    let My_A := (-6 * E * Iy / L2) * uaT.z + (4 * E * Iy / L) * raT.y +
      (6 * E * Iy / L2) * ubT.z + (2 * E * Iy / L) * rbT.y
    let V3v := Fz_A
    let M2 := My_A
    let Mz_B := k_bz_2 * uaT.y + k_bz_4 * raT.z - k_bz_2 * ubT.y + k_bz_3 * rbT.z
    let My_B := (6 * E * Iy / L2) * uaT.z + (2 * E * Iy / L) * raT.y +
      (-6 * E * Iy / L2) * ubT.z + (4 * E * Iy / L) * rbT.y
    let M3_end := Mz_B
    let M2_end := -My_B
    (⟨P / 1000, V2 / 1000, V3v / 1000, T / 1000, M2 / 1000, M3 / 1000⟩,
     ⟨P / 1000, V2 / 1000, V3v / 1000, T / 1000, M2_end / 1000, M3_end / 1000⟩)

/-- Displacement record of the solver joint at index `i` of `solver_joints`,
read from the full displacement vector. -/
def dispAt (sj : List Joint) (u : VecQ) (i : ℕ) : JointDisplacement :=
  ⟨(sj.getD i dummyJoint).id, u (6*i), u (6*i+1), u (6*i+2), u (6*i+3), u (6*i+4), u (6*i+5)⟩

/-- Build the initial detailed results from `frame_mapping`: stations
`i/(len−1)`, station displacements, and placeholder zero forces.  (The
mapping always holds at least two indices, so the divisor is nonzero.) -/
def buildFdrs (sj : List Joint) (u : VecQ) (fmap : List (Int × List ℕ)) :
    List (Int × DetailedFrameResult) :=
  fmap.map (fun e =>
    let indices := e.2
    (e.1,
      ⟨(List.range indices.length).map
          (fun i : ℕ => (i : ℚ) / ((indices.length - 1 : ℕ) : ℚ)),
        indices.map (dispAt sj u),
        indices.map (fun _ => (⟨0, 0, 0, 0, 0, 0⟩ : FrameForces))⟩))

/-- The six-component slice pair `(translations, rotations)` of node index
`i` in the full displacement vector. -/
def uSlice (u : VecQ) (i : ℕ) : V3 × V3 :=
  (⟨u (6*i), u (6*i+1), u (6*i+2)⟩, ⟨u (6*i+3), u (6*i+4), u (6*i+5)⟩)

/-- The member-force pass over one detailed result: replace the placeholder
forces segment by segment (start forces at station `i`, end forces of the
final segment at the last station); entries are kept when the frame, section
or material cannot be resolved. -/
def forcePassOne (env : FloatEnv) (m : StructuralModel) (sj : List Joint)
    (fmap : List (Int × List ℕ)) (u : VecQ)
    (entry : Int × DetailedFrameResult) : Int × DetailedFrameResult :=
  let orig_id := entry.1
  match m.frames.find? (fun f => decide (f.id = orig_id)) with
  | none => entry
  | some fr =>
    match sectionFind m fr.sectionId with
    | none => entry
    | some sec =>
      match materialFind m sec.materialId with
      | none => entry
      | some mat =>
        match dictGet fmap orig_id with
        | none => entry
        | some indices =>
          let fdr := entry.2
          let newForces := (List.range (indices.length - 1)).foldl
            (fun forces i =>
              let idx_a := indices.getD i 0
              let idx_b := indices.getD (i + 1) 0
              let node_a := sj.getD idx_a dummyJoint
              let node_b := sj.getD idx_b dummyJoint
              let fs := calculate_segment_forces env node_a node_b
                (uSlice u idx_a) (uSlice u idx_b) sec mat fr.orientation
              let forces1 := if i < forces.length then forces.set i fs.1 else forces
              if i = indices.length - 2 then forces1.set (i + 1) fs.2 else forces1)
            fdr.forces
          (orig_id, { fdr with forces := newForces })

/-- The member-force pass over all detailed results. -/
def forcePass (env : FloatEnv) (m : StructuralModel) (sj : List Joint)
    (fmap : List (Int × List ℕ)) (u : VecQ)
    (fdrs : List (Int × DetailedFrameResult)) :
    List (Int × DetailedFrameResult) :=
  fdrs.map (forcePassOne env m sj fmap u)

/-- Displacement records for the (post-preprocessor) model joints. -/
def origDisplacements (m : StructuralModel) (idx : List (Int × ℕ)) (u : VecQ) :
    List JointDisplacement :=
  m.joints.foldl (fun acc j =>
    match dictGet idx j.id with
    | none => acc
    | some i => acc ++ [⟨j.id, u (6*i), u (6*i+1), u (6*i+2), u (6*i+3), u (6*i+4), u (6*i+5)⟩]) []

/-- The reaction residual `R = K·u − F` (full, unreduced stiffness). -/
def reactionVec (K : MatQ) (u F : VecQ) (total_dof : ℕ) : VecQ :=
  fun d => (∑ c ∈ Finset.range total_dof, K d c * u c) - F d

/-- Reaction records for the model joints, converted from N to kN. -/
def origReactions (m : StructuralModel) (idx : List (Int × ℕ)) (rv : VecQ) :
    List JointReaction :=
  m.joints.foldl (fun acc j =>
    match dictGet idx j.id with
    | none => acc
    | some i => acc ++ [⟨j.id, rv (6*i) / 1000, rv (6*i+1) / 1000, rv (6*i+2) / 1000,
        rv (6*i+3) / 1000, rv (6*i+4) / 1000, rv (6*i+5) / 1000⟩]) []

/-- Maximum Euclidean translation magnitude over the displacement records
(oracle square root). -/
def maxDisplacementOf (env : FloatEnv) (disps : List JointDisplacement) : ℚ :=
  disps.foldl (fun md d =>
    let disp := env.sqrtQ (d.ux * d.ux + d.uy * d.uy + d.uz * d.uz)
    if disp > md then disp else md) 0

/-- The dense-versus-sparse storage decision of `analyze_structure`:
`use_sparse = config.use_sparse_solver and total_dof > 100`. -/
def useSparse (config : SolverConfig) (total_dof : ℕ) : Bool :=
  config.use_sparse_solver && decide (100 < total_dof)

/-- The singularity warning printed (to standard output, not to the log) by
`matrix_utils.solve_linear_system`. -/
def singularWarning : String :=
  "Warning: Singular matrix detected, using Least Squares solution."

/-- The `try:` body of `analyze_structure`, from the load-case lookup to the
assembled `AnalysisResults`.  A raised exception carries its message together
with the log as already accumulated (the `except` clause reads the same
mutable list). -/
def tryBlock (env : FloatEnv) (m : StructuralModel) (load_case_id : String)
    (config : SolverConfig) (log1 : List String) :
    Except (String × List String) AnalysisResults :=
  let log2 := log1 ++ ["Starting analysis..."]
  match m.loadCases.find? (fun lc => decide (lc.id = load_case_id)) with
  | none => Except.error ("Load case " ++ load_case_id ++ " not found", log2)
  | some load_case =>
    let S := clampSegments config.meshing_segments
    let st := meshAll S m log2
    let log3 := st.log ++ ["Meshed model: " ++ toString m.joints.length ++ " -> " ++
      toString st.sj.length ++ " joints, " ++ toString m.frames.length ++ " -> " ++
      toString st.sf.length ++ " elements."]
    let total_dof := st.sj.length * 6
    let log4 := log3 ++ ["System DOF: " ++ toString total_dof]
    let use_sparse := useSparse config total_dof
    let log5 := log4 ++ [if use_sparse then
        "Using sparse matrix solver (DOF=" ++ toString total_dof ++ ")"
      else
        "Using dense matrix solver (DOF=" ++ toString total_dof ++ ")"]
    match assembleElements env m st.sj st.idx use_sparse st.sf zeroMat with
    | Except.error e => Except.error (e, log5)
    | Except.ok K =>
      match applyPatterns env m st.sj st.idx st.fmap st.sf load_case.patterns zeroVec with
      | Except.error e => Except.error (e, log5)
      | Except.ok F =>
        let free := computeFreeDofs st.sj
        let n_free := free.length
        let log6 := log5 ++ ["Solving system... (Free DOF: " ++ toString n_free ++ ")"]
        let Kred : MatQ := fun a b => K (free.getD a 0) (free.getD b 0)
        let Fred : VecQ := fun a => F (free.getD a 0)
        let ured := if use_sparse then solve_sparse env Kred n_free Fred
          else solve_linear_system env Kred n_free Fred
        let u : VecQ := fun d =>
          match free.findIdx? (fun x => decide (x = d)) with
          | some i => ured i
          | none => 0
        let displacements := origDisplacements m st.idx u
        let fdrs0 := buildFdrs st.sj u st.fmap
        let fdrs := forcePass env m st.sj st.fmap u fdrs0
        let max_disp := maxDisplacementOf env displacements
        let log7 := log6 ++ ["Calculating reactions..."]
        let rv := reactionVec K u F total_dof
        let reactions := origReactions m st.idx rv
        let log8 := log7 ++ ["Analysis complete."]
        Except.ok
          { loadCaseId := load_case_id,
            caseName := some load_case.name,
            displacements := displacements,
            frameDetailedResults := some (fdrs.map (fun e => (toString e.1, e.2))),
            reactions := reactions,
            isValid := true,
            maxDisplacement := max_disp,
            log := log8 }

/-- `fea_solver.analyze_structure`.  The preprocessor runs before the `try`
block, so its exceptions propagate (`Except.error`); exceptions inside the
block are caught and turned into an invalid `AnalysisResults` with the
message appended to the log. -/
def analyze_structure (env : FloatEnv) (model : StructuralModel)
    (load_case_id : String) (configO : Option SolverConfig) :
    Except String AnalysisResults :=
  let config := configO.getD {}
  do
    let pre : StructuralModel × List String ←
      if config.enable_intersection_check then
        (preprocess_intersections model).map
          (fun mm => (mm, ["Running intersection detection..."]))
      else
        Except.ok (model, ["Skipping intersection detection (disabled in config)"])
    let m := pre.1
    let log1 := pre.2
    Except.ok (match tryBlock env m load_case_id config log1 with
      | Except.ok r => r
      | Except.error e =>
        { loadCaseId := load_case_id,
          caseName := none,
          displacements := [],
          frameDetailedResults := none,
          reactions := [],
          isValid := false,
          maxDisplacement := 0,
          log := e.2 ++ ["Error: " ++ e.1] })

/-! ### Result combination (`fea_solver.combine_results`). -/

/-- A zero displacement record for a joint id. -/
def zeroJD (jid : Int) : JointDisplacement := ⟨jid, 0, 0, 0, 0, 0, 0⟩

/-- A zero reaction record for a joint id. -/
def zeroJR (jid : Int) : JointReaction := ⟨jid, 0, 0, 0, 0, 0, 0⟩

/-- Scaled accumulation of one displacement record into a target. -/
def addScaledJD (t d : JointDisplacement) (scale : ℚ) : JointDisplacement :=
  { t with
      ux := t.ux + d.ux * scale,
      uy := t.uy + d.uy * scale,
      uz := t.uz + d.uz * scale,
      rx := t.rx + d.rx * scale,
      ry := t.ry + d.ry * scale,
      rz := t.rz + d.rz * scale }

/-- Scaled accumulation of one reaction record into a target. -/
def addScaledJR (t r : JointReaction) (scale : ℚ) : JointReaction :=
  { t with
      fx := t.fx + r.fx * scale,
      fy := t.fy + r.fy * scale,
      fz := t.fz + r.fz * scale,
      mx := t.mx + r.mx * scale,
      my := t.my + r.my * scale,
      mz := t.mz + r.mz * scale }

/-- Scaled accumulation of one force record into a target. -/
def addScaledFF (t f : FrameForces) (scale : ℚ) : FrameForces :=
  ⟨t.P + f.P * scale, t.V2 + f.V2 * scale, t.V3 + f.V3 * scale,
   t.T + f.T * scale, t.M2 + f.M2 * scale, t.M3 + f.M3 * scale⟩

/-- Fold one case's plain displacements into the accumulating per-joint map
(zero-initialise on first sight). -/
def combineDispInto (dm : List (Int × JointDisplacement))
    (ds : List JointDisplacement) (scale : ℚ) : List (Int × JointDisplacement) :=
  ds.foldl (fun dm d =>
    let dm1 := if (dictGet dm d.jointId).isSome then dm
      else dictInsert dm d.jointId (zeroJD d.jointId)
    let target := (dictGet dm1 d.jointId).getD (zeroJD d.jointId)
    dictInsert dm1 d.jointId (addScaledJD target d scale)) dm

/-- Fold one case's reactions into the accumulating per-joint map. -/
def combineReactionsInto (rm : List (Int × JointReaction))
    (rs : List JointReaction) (scale : ℚ) : List (Int × JointReaction) :=
  rs.foldl (fun rm r =>
    let rm1 := if (dictGet rm r.jointId).isSome then rm
      else dictInsert rm r.jointId (zeroJR r.jointId)
    let target := (dictGet rm1 r.jointId).getD (zeroJR r.jointId)
    dictInsert rm1 r.jointId (addScaledJR target r scale)) rm

/-- The element-wise loop `for i, d in enumerate(detail.displacements):
target.displacements[i] += …`: reading past the end of the target raises the
Python `IndexError` (`"list index out of range"`). -/
def zipAddJD (target detail : List JointDisplacement) (scale : ℚ) :
    Except String (List JointDisplacement) :=
  if detail.length > target.length then Except.error "list index out of range"
  else Except.ok
    (List.zipWith (fun t d => addScaledJD t d scale) target detail ++
      target.drop detail.length)

/-- The analogous element-wise force loop. -/
def zipAddFF (target detail : List FrameForces) (scale : ℚ) :
    Except String (List FrameForces) :=
  if detail.length > target.length then Except.error "list index out of range"
  else Except.ok
    (List.zipWith (fun t f => addScaledFF t f scale) target detail ++
      target.drop detail.length)

/-- Fold one case's detailed frame results into the accumulating map: parse
the stringified id, zero-initialise from the first-seen case's array shapes
(sharing its stations), then accumulate element-wise. -/
def combineDetailInto (fm : List (Int × DetailedFrameResult))
    (entries : List (String × DetailedFrameResult)) (scale : ℚ) :
    Except String (List (Int × DetailedFrameResult)) :=
  entries.foldlM (fun fm e => do
    let fid ← match e.1.toInt? with
      | some n => Except.ok n
      | none => Except.error ("invalid literal for int() with base 10: '" ++ e.1 ++ "'")
    let detail := e.2
    let fm1 := if (dictGet fm fid).isSome then fm
      else dictInsert fm fid
        ⟨detail.stations,
          detail.displacements.map (fun jd => zeroJD jd.jointId),
          detail.forces.map (fun _ => (⟨0, 0, 0, 0, 0, 0⟩ : FrameForces))⟩
    let target := (dictGet fm1 fid).getD ⟨[], [], []⟩
    let newDisps ← zipAddJD target.displacements detail.displacements scale
    let newForces ← zipAddFF target.forces detail.forces scale
    Except.ok (dictInsert fm1 fid ⟨target.stations, newDisps, newForces⟩)) fm

/-- An empty results record (only used as the impossible default of a lookup
whose presence was already checked). -/
def emptyResults : AnalysisResults :=
  { loadCaseId := "", displacements := [], reactions := [], isValid := false,
    maxDisplacement := 0, log := [] }

/-- `fea_solver.combine_results`: check presence of every referenced case,
accumulate scaled displacements, detailed results and reactions, recompute
the maximum displacement; any exception yields an invalid result with the
message in the log. -/
def combine_results (env : FloatEnv) (combination : LoadCombination)
    (results_map : List (String × AnalysisResults)) : AnalysisResults :=
  let log := ["Combining results for " ++ combination.name ++ "..."]
  let inner : Except String
      (List (Int × JointDisplacement) × List (Int × DetailedFrameResult) ×
        List (Int × JointReaction)) := do
    let _ ← combination.cases.foldlM (fun _ case =>
      if (dictGet results_map case.caseId).isSome then Except.ok ()
      else Except.error ("Missing results for " ++ case.caseId)) ()
    let dmfm ← combination.cases.foldlM
      (fun (s : List (Int × JointDisplacement) × List (Int × DetailedFrameResult)) case => do
        let result := (dictGet results_map case.caseId).getD emptyResults
        let scale := case.scale
        let dm1 := combineDispInto s.1 result.displacements scale
        let fm1 ← match result.frameDetailedResults with
          | none => Except.ok s.2
          | some entries => combineDetailInto s.2 entries scale
        Except.ok (dm1, fm1)) ([], [])
    let rm := combination.cases.foldl (fun rm case =>
      let result := (dictGet results_map case.caseId).getD emptyResults
      combineReactionsInto rm result.reactions case.scale) []
    Except.ok (dmfm.1, dmfm.2, rm)
  match inner with
  | Except.ok s =>
    { loadCaseId := combination.id,
      caseName := some combination.name,
      displacements := s.1.map (·.2),
      frameDetailedResults := some (s.2.1.map (fun e => (toString e.1, e.2))),
      reactions := s.2.2.map (·.2),
      isValid := true,
      maxDisplacement := maxDisplacementOf env (s.1.map (·.2)),
      log := log }
  | Except.error e =>
    { loadCaseId := combination.id,
      caseName := none,
      displacements := [],
      frameDetailedResults := none,
      reactions := [],
      isValid := false,
      maxDisplacement := 0,
      log := log ++ ["Error: " ++ e] }

/-- The nodal force the specification's distributed-load formula predicts for
one clipped sub-segment, with the magnitudes linearly interpolated across the
trapezoid exactly (denominator `endDistance − startDistance`, no clamp): half
of `0.5·(w_start + w_end)·(active_end − active_start)·total_length·scale·1000`.
Written from the claim's words, for comparison with the code. -/
def claimSegmentForceHalf (startRatio endRatio startMag endMag scale
    total_length ratio_a ratio_b : ℚ) : ℚ :=
  let active_start := max ratio_a startRatio
  let active_end := min ratio_b endRatio
  let w_start := startMag + (endMag - startMag) * ((active_start - startRatio) / (endRatio - startRatio))
  let w_end := startMag + (endMag - startMag) * ((active_end - startRatio) / (endRatio - startRatio))
  ((1 / 2) * (w_start + w_end) * (active_end - active_start) * total_length * scale * 1000) / 2

/-- Total value scattered onto cell `(r, c)` by a write list (proof-side
characterization of both assembly loops). -/
def cellSum (l : List ((ℕ × ℕ) × ℚ)) (r c : ℕ) : ℚ :=
  ((l.filter (fun e => decide (e.1 = (r, c)))).map (·.2)).sum

/-! ### Concrete fixtures used by witnesses and counterexamples. -/

/-- A concrete oracle bundle: square roots and trigonometry stubbed with
total rational functions, a direct solver that always succeeds with the zero
vector. -/
def envW : FloatEnv :=
  { sqrtQ := fun _ => 1, cosDeg := fun _ => 1, sinDeg := fun _ => 0,
    directSolve := fun _ _ _ => some (fun _ => 0),
    lstsq := fun _ _ _ => fun _ => 0,
    spSolve := fun _ _ _ => some (fun _ => 0) }

/-- The oracle bundle of a run whose direct factorization always fails as
numerically singular (`np.linalg.solve` raises `LinAlgError`); the
least-squares fallback returns the zero vector. -/
def envSing : FloatEnv := { envW with directSolve := fun _ _ _ => none }

/-- A steel-like material. -/
def matW : Material := ⟨"M", 200000, 80000, 7850⟩

/-- A section referencing `matW`. -/
def secW : FrameSection := ⟨"S", "M", ⟨1/100, 833/100000000, 833/100000000, 1/100000⟩⟩

/-- A 5 m beam between two joints with a resolvable section. -/
def modelBeamW : StructuralModel :=
  { materials := [matW], frameSections := [secW],
    loadPatterns := [], loadCases := [⟨"LC", "Case", []⟩],
    joints := [⟨1, 0, 0, 0, none⟩, ⟨2, 5, 0, 0, none⟩],
    frames := [⟨1, 1, 2, some "S", 0, 0, 0⟩],
    pointLoads := [], distributedFrameLoads := [] }

/-- The same beam without any section (the element contributes nothing). -/
def modelNoSec : StructuralModel :=
  { materials := [], frameSections := [],
    loadPatterns := [], loadCases := [⟨"LC", "Case", []⟩],
    joints := [⟨1, 0, 0, 0, none⟩, ⟨2, 5, 0, 0, none⟩],
    frames := [⟨1, 1, 2, none, 0, 0, 0⟩],
    pointLoads := [], distributedFrameLoads := [] }

/-- A frame with coincident endpoint joints and a resolvable section. -/
def modelZeroW : StructuralModel :=
  { materials := [matW], frameSections := [secW],
    loadPatterns := [], loadCases := [⟨"LC", "Case", []⟩],
    joints := [⟨1, 0, 0, 0, none⟩, ⟨2, 0, 0, 0, none⟩],
    frames := [⟨1, 1, 2, some "S", 0, 0, 0⟩],
    pointLoads := [], distributedFrameLoads := [] }

/-- Two frames crossing at `(2, 0, 0)` without sharing a joint: the
intersection preprocessor splits both. -/
def modelCross : StructuralModel :=
  { materials := [], frameSections := [],
    loadPatterns := [], loadCases := [⟨"LC", "Case", []⟩],
    joints := [⟨1, 0, 0, 0, none⟩, ⟨2, 4, 0, 0, none⟩,
      ⟨3, 2, -2, 0, none⟩, ⟨4, 2, 2, 0, none⟩],
    frames := [⟨1, 1, 2, none, 0, 0, 0⟩, ⟨2, 3, 4, none, 0, 0, 0⟩],
    pointLoads := [], distributedFrameLoads := [] }

/-- A three-station detailed result (all zeros). -/
def dfrThree : DetailedFrameResult :=
  ⟨[0, 1/2, 1], [zeroJD 1, zeroJD (-1), zeroJD 2],
   [⟨1, 0, 0, 0, 0, 0⟩, ⟨2, 0, 0, 0, 0, 0⟩, ⟨3, 0, 0, 0, 0, 0⟩]⟩

/-- A two-station detailed result (all zeros). -/
def dfrTwo : DetailedFrameResult :=
  ⟨[0, 1], [zeroJD 1, zeroJD 2], [⟨5, 0, 0, 0, 0, 0⟩, ⟨6, 0, 0, 0, 0, 0⟩]⟩

/-- A valid analysis result carrying one detailed frame result for frame 1. -/
def resultsWith (caseId : String) (d : DetailedFrameResult) : AnalysisResults :=
  { loadCaseId := caseId, displacements := [], frameDetailedResults := some [("1", d)],
    reactions := [], isValid := true, maxDisplacement := 0, log := [] }

/-! ## Theorems -/

/-- C9: `is_point_on_segment(P, A, B)` returns true iff the endpoint
distances are at least τ, `|B−A| ≥ τ` (the source tests `len_ab < tolerance`,
so the boundary case `|B−A| = τ` passes — the claim's strict `|B−A| > τ` is
the one discrepancy), the projection parameter lies strictly inside
`(τ, 1−τ)`, and the perpendicular distance is below τ; all norm comparisons
stated on squares. -/
theorem C9_point_on_segment_iff (p a b : V3) (tol : ℚ) :
    is_point_on_segment p a b tol = true ↔
      (V3.normSq (b.sub a) ≥ tol * tol ∧
       V3.normSq (p.sub a) ≥ tol * tol ∧
       V3.normSq (p.sub b) ≥ tol * tol ∧
       (tol < V3.dot (p.sub a) (b.sub a) / V3.normSq (b.sub a) ∧
         V3.dot (p.sub a) (b.sub a) / V3.normSq (b.sub a) < 1 - tol) ∧
       V3.normSq (p.sub (a.add (V3.smul
         (V3.dot (p.sub a) (b.sub a) / V3.normSq (b.sub a)) (b.sub a)))) < tol * tol) := by
  unfold is_point_on_segment
  dsimp only
  split_ifs with h1 h2 h3
  · simp only [Bool.false_eq_true, false_iff]
    rintro ⟨-, hpa, hpb, -, -⟩
    rcases h1 with h | h
    · exact absurd h (not_lt.mpr hpa)
    · exact absurd h (not_lt.mpr hpb)
  · simp only [Bool.false_eq_true, false_iff]
    rintro ⟨hab, -, -, -, -⟩
    exact absurd h2 (not_lt.mpr hab)
  · simp only [Bool.false_eq_true, false_iff]
    rintro ⟨-, -, -, ht, -⟩
    rcases h3 with h | h
    · exact absurd h (not_le.mpr ht.1)
    · exact absurd h (not_le.mpr ht.2)
  · push_neg at h1 h2 h3
    simp only [decide_eq_true_eq]
    constructor
    · intro h
      exact ⟨h2, h1.1, h1.2, h3, h⟩
    · rintro ⟨-, -, -, -, h5⟩
      exact h5

/-- C9 counterexample to the claim as stated: with `τ = 1e-4`,
`A = (0,0,0)`, `B = (1e-4,0,0)` (so `|B−A| = τ` exactly, failing the claim's
strict `|B−A| > τ`) and `P = (5e-5, 9e-5, 0)`, the code returns true while
the specification's predicate is false. -/
theorem C9_counterexample :
    is_point_on_segment ⟨1/20000, 9/100000, 0⟩ ⟨0, 0, 0⟩ ⟨1/10000, 0, 0⟩ (1/10000) = true ∧
    ¬ onSegmentSpec ⟨1/20000, 9/100000, 0⟩ ⟨0, 0, 0⟩ ⟨1/10000, 0, 0⟩ (1/10000) := by
  exact ⟨by with_unfolding_all decide, by with_unfolding_all decide⟩

theorem vecAdd_self (F : VecQ) (i : ℕ) (v : ℚ) : vecAdd F i v i = F i + v := by
  simp [vecAdd]

theorem vecAdd_other (F : VecQ) (i : ℕ) (v : ℚ) (d : ℕ) (h : d ≠ i) :
    vecAdd F i v d = F d := by
  simp [vecAdd, h]

/-- C1 (amended): the sub-segment of a distributed load is skipped exactly
when `ratio_b ≤ startDistance` or `ratio_a ≥ endDistance`; otherwise the
interval is clipped, the magnitudes are interpolated with the load-range
denominator clamped below at `1e-4` (exact trapezoid interpolation whenever
`endDistance − startDistance ≥ 1e-4`), the total force is
`0.5·(w_start+w_end)·(active_end−active_start)·total_length·scale·1000`, half
of it is added to the three translational DOFs of each endpoint node, and the
six moment DOFs of the two endpoints are untouched. -/
theorem C1_distributed_segment_load (s e wS wE scale tl ra rb : ℚ)
    (dir : ℚ × ℚ × ℚ) (ia ib : ℕ) (F : VecQ) :
    ((rb ≤ s ∨ ra ≥ e) →
      ∀ d, distributeSegmentForce s e wS wE scale tl ra rb dir ia ib F d = F d) ∧
    (¬(rb ≤ s ∨ ra ≥ e) → ia ≠ ib →
      let aS := max ra s
      let aE := min rb e
      let lr := max (1 / 10000) (e - s)
      let w1 := wS + (wE - wS) * ((aS - s) / lr)
      let w2 := wS + (wE - wS) * ((aE - s) / lr)
      let tf := (1 / 2) * (w1 + w2) * (aE - aS) * tl * scale * 1000
      let F' := distributeSegmentForce s e wS wE scale tl ra rb dir ia ib F
      (F' (6*ia) = F (6*ia) + dir.1 * (tf / 2) ∧
       F' (6*ia+1) = F (6*ia+1) + dir.2.1 * (tf / 2) ∧
       F' (6*ia+2) = F (6*ia+2) + dir.2.2 * (tf / 2) ∧
       F' (6*ib) = F (6*ib) + dir.1 * (tf / 2) ∧
       F' (6*ib+1) = F (6*ib+1) + dir.2.1 * (tf / 2) ∧
       F' (6*ib+2) = F (6*ib+2) + dir.2.2 * (tf / 2)) ∧
      (F' (6*ia+3) = F (6*ia+3) ∧ F' (6*ia+4) = F (6*ia+4) ∧ F' (6*ia+5) = F (6*ia+5) ∧
       F' (6*ib+3) = F (6*ib+3) ∧ F' (6*ib+4) = F (6*ib+4) ∧ F' (6*ib+5) = F (6*ib+5)) ∧
      (1 / 10000 ≤ e - s →
        w1 = wS + (wE - wS) * ((aS - s) / (e - s)) ∧
        w2 = wS + (wE - wS) * ((aE - s) / (e - s)))) := by
  constructor
  · intro hskip d
    unfold distributeSegmentForce
    rw [if_pos hskip]
  · intro hskip hne
    unfold distributeSegmentForce
    rw [if_neg hskip]
    refine ⟨⟨?_, ?_, ?_, ?_, ?_, ?_⟩, ⟨?_, ?_, ?_, ?_, ?_, ?_⟩, ?_⟩
    · rw [vecAdd_other _ _ _ _ (by omega),
        vecAdd_other _ _ _ _ (by omega),
        vecAdd_other _ _ _ _ (by omega),
        vecAdd_other _ _ _ _ (by omega),
        vecAdd_other _ _ _ _ (by omega),
        vecAdd_self]
      ring
    · rw [vecAdd_other _ _ _ _ (by omega),
        vecAdd_other _ _ _ _ (by omega),
        vecAdd_other _ _ _ _ (by omega),
        vecAdd_other _ _ _ _ (by omega),
        vecAdd_self,
        vecAdd_other _ _ _ _ (by omega)]
      ring
    · rw [vecAdd_other _ _ _ _ (by omega),
        vecAdd_other _ _ _ _ (by omega),
        vecAdd_other _ _ _ _ (by omega),
        vecAdd_self,
        vecAdd_other _ _ _ _ (by omega),
        vecAdd_other _ _ _ _ (by omega)]
      ring
    · rw [vecAdd_other _ _ _ _ (by omega),
        vecAdd_other _ _ _ _ (by omega),
        vecAdd_self,
        vecAdd_other _ _ _ _ (by omega),
        vecAdd_other _ _ _ _ (by omega),
        vecAdd_other _ _ _ _ (by omega)]
      ring
    · rw [vecAdd_other _ _ _ _ (by omega),
        vecAdd_self,
        vecAdd_other _ _ _ _ (by omega),
        vecAdd_other _ _ _ _ (by omega),
        vecAdd_other _ _ _ _ (by omega),
        vecAdd_other _ _ _ _ (by omega)]
      ring
    · rw [vecAdd_self,
        vecAdd_other _ _ _ _ (by omega),
        vecAdd_other _ _ _ _ (by omega),
        vecAdd_other _ _ _ _ (by omega),
        vecAdd_other _ _ _ _ (by omega),
        vecAdd_other _ _ _ _ (by omega)]
      ring
    · rw [vecAdd_other _ _ _ _ (by omega),
        vecAdd_other _ _ _ _ (by omega),
        vecAdd_other _ _ _ _ (by omega),
        vecAdd_other _ _ _ _ (by omega),
        vecAdd_other _ _ _ _ (by omega),
        vecAdd_other _ _ _ _ (by omega)]
    · rw [vecAdd_other _ _ _ _ (by omega),
        vecAdd_other _ _ _ _ (by omega),
        vecAdd_other _ _ _ _ (by omega),
        vecAdd_other _ _ _ _ (by omega),
        vecAdd_other _ _ _ _ (by omega),
        vecAdd_other _ _ _ _ (by omega)]
    · rw [vecAdd_other _ _ _ _ (by omega),
        vecAdd_other _ _ _ _ (by omega),
        vecAdd_other _ _ _ _ (by omega),
        vecAdd_other _ _ _ _ (by omega),
        vecAdd_other _ _ _ _ (by omega),
        vecAdd_other _ _ _ _ (by omega)]
    · rw [vecAdd_other _ _ _ _ (by omega),
        vecAdd_other _ _ _ _ (by omega),
        vecAdd_other _ _ _ _ (by omega),
        vecAdd_other _ _ _ _ (by omega),
        vecAdd_other _ _ _ _ (by omega),
        vecAdd_other _ _ _ _ (by omega)]
    · rw [vecAdd_other _ _ _ _ (by omega),
        vecAdd_other _ _ _ _ (by omega),
        vecAdd_other _ _ _ _ (by omega),
        vecAdd_other _ _ _ _ (by omega),
        vecAdd_other _ _ _ _ (by omega),
        vecAdd_other _ _ _ _ (by omega)]
    · rw [vecAdd_other _ _ _ _ (by omega),
        vecAdd_other _ _ _ _ (by omega),
        vecAdd_other _ _ _ _ (by omega),
        vecAdd_other _ _ _ _ (by omega),
        vecAdd_other _ _ _ _ (by omega),
        vecAdd_other _ _ _ _ (by omega)]
    · intro hrange
      rw [max_eq_right hrange]
      exact ⟨rfl, rfl⟩

/-- C1 counterexample to the claim as stated: for a load over the tiny range
`[0, 5e-5]` (shorter than the `1e-4` clamp) covering sub-segment `[0, 1]`
with magnitudes `0 → 1`, the force the code adds at the first endpoint's
translational DOF differs from the claim's exactly-interpolated value
(`1/160` versus `1/80`). -/
theorem C1_counterexample :
    distributeSegmentForce 0 (1/20000) 0 1 1 1 0 1 (1, 0, 0) 0 1 zeroVec 0 ≠
      zeroVec 0 + 1 * claimSegmentForceHalf 0 (1/20000) 0 1 1 1 0 1 := by
  with_unfolding_all decide

/-- C1 witness: a uniform 10 kN/m load over the whole span, sub-segment
`[0, 1/2]` of a 5 m frame in direction `(0, −1, 0)`: the theorem applies and
the Y-translation of the first endpoint receives `−12500` N. -/
theorem C1_witness :
    distributeSegmentForce 0 1 10 10 1 5 0 (1/2) ((0 : ℚ), (-1 : ℚ), (0 : ℚ)) 0 1 zeroVec 1 =
      zeroVec 1 + (-1) * ((1 / 2) * ((10 + (10 - 10) * ((max (0 : ℚ) 0 - 0) / max (1/10000) (1 - 0))) +
        (10 + (10 - 10) * ((min (1/2 : ℚ) 1 - 0) / max (1/10000) (1 - 0)))) *
        (min (1/2 : ℚ) 1 - max (0 : ℚ) 0) * 5 * 1 * 1000 / 2) := by
  have h := (C1_distributed_segment_load 0 1 10 10 1 5 0 (1/2)
    ((0 : ℚ), (-1 : ℚ), (0 : ℚ)) 0 1 zeroVec).2 (by norm_num) (by omega)
  exact h.1.2.1

theorem cellSum_cons (e : (ℕ × ℕ) × ℚ) (l : List ((ℕ × ℕ) × ℚ)) (r c : ℕ) :
    cellSum (e :: l) r c = (if e.1 = (r, c) then e.2 else 0) + cellSum l r c := by
  by_cases h : e.1 = (r, c) <;> simp [cellSum, List.filter_cons, h]

theorem cellSum_append (l₁ l₂ : List ((ℕ × ℕ) × ℚ)) (r c : ℕ) :
    cellSum (l₁ ++ l₂) r c = cellSum l₁ r c + cellSum l₂ r c := by
  simp [cellSum, List.filter_append]

theorem cellSum_eq_zero_of_not_mem (l : List ((ℕ × ℕ) × ℚ)) (r c : ℕ)
    (h : (r, c) ∉ l.map (·.1)) : cellSum l r c = 0 := by
  induction l with
  | nil => rfl
  | cons e t ih =>
    simp only [List.map_cons, List.mem_cons, not_or] at h
    rw [cellSum_cons, if_neg (fun hc => h.1 hc.symm), ih h.2, add_zero]

theorem addCells_apply (l : List ((ℕ × ℕ) × ℚ)) :
    ∀ (K : MatQ) (r c : ℕ), addCells K l r c = K r c + cellSum l r c := by
  induction l with
  | nil => intro K r c; simp [addCells, cellSum]
  | cons e t ih =>
    intro K r c
    have hstep : addCells K (e :: t) = addCells
        (fun r c => if r = e.1.1 ∧ c = e.1.2 then K e.1.1 e.1.2 + e.2 else K r c) t := rfl
    rw [hstep, ih, cellSum_cons]
    by_cases h : e.1 = (r, c)
    · rw [if_pos h, if_pos ⟨(congrArg Prod.fst h).symm ▸ rfl, (congrArg Prod.snd h).symm ▸ rfl⟩]
      have h1 : e.1.1 = r := congrArg Prod.fst h
      have h2 : e.1.2 = c := congrArg Prod.snd h
      rw [h1, h2]
      ring
    · rw [if_neg h, if_neg (fun hc => h (Prod.ext hc.1.symm hc.2.symm))]
      ring

theorem writeCells_aux (K : MatQ) (l : List ((ℕ × ℕ) × ℚ))
    (hn : (l.map (·.1)).Nodup) :
    ∀ (acc : MatQ) (r c : ℕ),
      (l.foldl (fun acc e => fun r c =>
        if r = e.1.1 ∧ c = e.1.2 then K e.1.1 e.1.2 + e.2 else acc r c) acc) r c =
      if (r, c) ∈ l.map (·.1) then K r c + cellSum l r c else acc r c := by
  induction l with
  | nil => intro acc r c; simp
  | cons e t ih =>
    intro acc r c
    simp only [List.map_cons, List.nodup_cons] at hn
    simp only [List.map_cons, List.mem_cons]
    rw [List.foldl_cons, ih hn.2, cellSum_cons]
    by_cases hm : (r, c) ∈ t.map (·.1)
    · have hne : e.1 ≠ (r, c) := fun hc => hn.1 (hc ▸ hm)
      rw [if_pos hm, if_pos (Or.inr hm), if_neg hne, zero_add]
    · rw [if_neg hm]
      by_cases he : e.1 = (r, c)
      · have h1 : e.1.1 = r := congrArg Prod.fst he
        have h2 : e.1.2 = c := congrArg Prod.snd he
        rw [if_pos ⟨h1.symm, h2.symm⟩, if_pos (Or.inl he.symm), if_pos he,
          cellSum_eq_zero_of_not_mem t r c hm, h1, h2]
        ring
      · rw [if_neg (fun hc => he (Prod.ext hc.1.symm hc.2.symm)),
          if_neg (fun hc => hc.elim (fun h => he h.symm) hm)]

theorem writeCells_apply (K : MatQ) (l : List ((ℕ × ℕ) × ℚ))
    (hn : (l.map (·.1)).Nodup) (r c : ℕ) :
    writeCells K l r c = K r c + cellSum l r c := by
  unfold writeCells
  rw [writeCells_aux K l hn K r c]
  by_cases hm : (r, c) ∈ l.map (·.1)
  · rw [if_pos hm]
  · rw [if_neg hm, cellSum_eq_zero_of_not_mem l r c hm, add_zero]

theorem nodup_getD_inj (dofs : List ℕ) (h : dofs.Nodup) {i j : ℕ}
    (hi : i < dofs.length) (hj : j < dofs.length)
    (he : dofs.getD i 0 = dofs.getD j 0) : i = j := by
  rw [List.getD_eq_get _ _ hi, List.getD_eq_get _ _ hj] at he
  have := (List.Nodup.get_inj_iff h).1 he
  exact congrArg Fin.val this

theorem pairList_cells (dofs : List ℕ) (k : ℕ → ℕ → ℚ) :
    (pairList dofs k).map (·.1) =
      (List.range dofs.length).flatMap (fun i =>
        (List.range dofs.length).map (fun j => (dofs.getD i 0, dofs.getD j 0))) := by
  simp [pairList, List.map_flatMap, List.map_map]
  rfl

theorem pairList_cells_nodup (dofs : List ℕ) (k : ℕ → ℕ → ℚ)
    (h : dofs.Nodup) : ((pairList dofs k).map (·.1)).Nodup := by
  rw [pairList_cells, List.nodup_flatMap]
  constructor
  · intro i _
    refine List.Nodup.map_on ?_ (List.nodup_range _)
    intro j1 h1 j2 h2 heq
    exact nodup_getD_inj dofs h (List.mem_range.1 h1) (List.mem_range.1 h2)
      (congrArg Prod.snd heq)
  · rw [List.pairwise_iff_getElem]
    intro a b ha hb hab
    simp only [List.getElem_range]
    intro cell hc1 hc2
    simp only [List.mem_map, List.mem_range] at hc1 hc2
    obtain ⟨j1, -, he1⟩ := hc1
    obtain ⟨j2, -, he2⟩ := hc2
    have : dofs.getD a 0 = dofs.getD b 0 := by
      have := he1.trans he2.symm
      exact congrArg Prod.fst this
    have hlen : a < dofs.length := by simpa using ha
    have hlen' : b < dofs.length := by simpa using hb
    exact absurd (nodup_getD_inj dofs h hlen hlen' this) (Nat.ne_of_lt hab)

theorem cellSum_flatMap (g : ℕ → List ((ℕ × ℕ) × ℚ)) (l : List ℕ) (r c : ℕ) :
    cellSum (l.flatMap g) r c = (l.map (fun i => cellSum (g i) r c)).sum := by
  induction l with
  | nil => rfl
  | cons a t ih => rw [List.flatMap_cons, cellSum_append, ih, List.map_cons, List.sum_cons]

theorem cellSum_map_pairs (cell : ℕ → ℕ × ℕ) (val : ℕ → ℚ) (l : List ℕ) (r c : ℕ) :
    cellSum (l.map (fun j => (cell j, val j))) r c =
      (l.map (fun j => if cell j = (r, c) then val j else 0)).sum := by
  induction l with
  | nil => rfl
  | cons a t ih => rw [List.map_cons, cellSum_cons, List.map_cons, List.sum_cons, ih]

theorem cellSum_pairList (dofs : List ℕ) (k : ℕ → ℕ → ℚ) (r c : ℕ) :
    cellSum (pairList dofs k) r c =
      ∑ i ∈ Finset.range dofs.length, ∑ j ∈ Finset.range dofs.length,
        if dofs.getD i 0 = r ∧ dofs.getD j 0 = c then k i j else 0 := by
  unfold pairList
  rw [cellSum_flatMap]
  have : ∀ i, cellSum ((List.range dofs.length).map
      (fun j => ((dofs.getD i 0, dofs.getD j 0), k i j))) r c =
      ∑ j ∈ Finset.range dofs.length,
        if dofs.getD i 0 = r ∧ dofs.getD j 0 = c then k i j else 0 := by
    intro i
    rw [cellSum_map_pairs (fun j => (dofs.getD i 0, dofs.getD j 0)) (k i)]
    show _ = ((List.range dofs.length).map (fun j =>
      if dofs.getD i 0 = r ∧ dofs.getD j 0 = c then k i j else 0)).sum
    congr 1
    refine List.map_congr_left (fun j _ => ?_)
    by_cases hc : (dofs.getD i 0, dofs.getD j 0) = (r, c)
    · rw [if_pos hc, if_pos ⟨congrArg Prod.fst hc, congrArg Prod.snd hc⟩]
    · rw [if_neg hc, if_neg (fun hx => hc (Prod.ext hx.1 hx.2))]
  rw [List.map_congr_left (fun i _ => this i)]
  rfl

theorem cellSum_pairList_symm (dofs : List ℕ) (k : ℕ → ℕ → ℚ) (r c : ℕ)
    (hk : ∀ i j, k i j = k j i) :
    cellSum (pairList dofs k) r c = cellSum (pairList dofs k) c r := by
  rw [cellSum_pairList, cellSum_pairList]
  rw [Finset.sum_comm]
  refine Finset.sum_congr rfl fun a _ => Finset.sum_congr rfl fun b _ => ?_
  by_cases h1 : dofs.getD b 0 = r ∧ dofs.getD a 0 = c
  · rw [if_pos h1, if_pos ⟨h1.2, h1.1⟩, hk]
  · rw [if_neg h1, if_neg (fun hc => h1 ⟨hc.2, hc.1⟩)]

theorem elementDofs_nodup (a b : ℕ) (h : a ≠ b) : (elementDofs a b).Nodup := by
  simp [elementDofs]
  omega

theorem except_bind_ok {ε α β : Type} (x : Except ε α) (f : α → Except ε β) (b : β) :
    (x >>= f) = Except.ok b ↔ ∃ a, x = Except.ok a ∧ f a = Except.ok b := by
  cases x <;> simp [Bind.bind, Except.bind]

theorem assemble_sparse_apply (K : MatQ) (k : ℕ → ℕ → ℚ) (dofs : List ℕ) (r c : ℕ) :
    assemble_sparse K k dofs r c = K r c + cellSum (pairList dofs k) r c :=
  addCells_apply (pairList dofs k) K r c

theorem assemble_global_apply (K : MatQ) (k : ℕ → ℕ → ℚ) (dofs : List ℕ)
    (h : dofs.Nodup) (r c : ℕ) :
    assemble_global K k dofs r c = K r c + cellSum (pairList dofs k) r c :=
  writeCells_apply K (pairList dofs k) (pairList_cells_nodup dofs k h) r c

theorem kEntry_symm (p1 p2 p3 p4 p5 p6 p7 p8 : ℚ) :
    ∀ i j, i < 12 → j < 12 →
      kEntry p1 p2 p3 p4 p5 p6 p7 p8 i j = kEntry p1 p2 p3 p4 p5 p6 p7 p8 j i := by
  intro i j hi hj
  interval_cases i <;> interval_cases j <;> rfl

theorem transform_symm (k T : ℕ → ℕ → ℚ)
    (hk : ∀ i j, i < 12 → j < 12 → k i j = k j i) (i j : ℕ) :
    transform_stiffness_to_global k T i j = transform_stiffness_to_global k T j i := by
  unfold transform_stiffness_to_global mat12Mul matTranspose
  have expand : ∀ (u v : ℕ),
      (∑ l ∈ Finset.range 12, (∑ m ∈ Finset.range 12, T m u * k m l) * T l v) =
      ∑ l ∈ Finset.range 12, ∑ m ∈ Finset.range 12, T m u * k m l * T l v :=
    fun u v => Finset.sum_congr rfl fun l _ => Finset.sum_mul _ _ _
  rw [expand, expand, Finset.sum_comm]
  refine Finset.sum_congr rfl fun a ha => Finset.sum_congr rfl fun b hb => ?_
  rw [hk b a (Finset.mem_range.1 hb) (Finset.mem_range.1 ha)]
  ring

theorem frame_element_stiffness_ok (env : FloatEnv) (ji jj : Joint)
    (sec : FrameSection) (mat : Material)
    (hL : ¬((jj.x - ji.x) * (jj.x - ji.x) + (jj.y - ji.y) * (jj.y - ji.y) +
      (jj.z - ji.z) * (jj.z - ji.z) < (1 / 1000000 : ℚ) * (1 / 1000000))) :
    ∃ p1 p2 p3 p4 p5 p6 p7 p8, frame_element_stiffness env ji jj sec mat =
      Except.ok (kEntry p1 p2 p3 p4 p5 p6 p7 p8) := by
  unfold frame_element_stiffness
  rw [if_neg hL]
  exact ⟨_, _, _, _, _, _, _, _, rfl⟩

theorem frame_element_stiffness_err (env : FloatEnv) (ji jj : Joint)
    (sec : FrameSection) (mat : Material)
    (hL : (jj.x - ji.x) * (jj.x - ji.x) + (jj.y - ji.y) * (jj.y - ji.y) +
      (jj.z - ji.z) * (jj.z - ji.z) < (1 / 1000000 : ℚ) * (1 / 1000000)) :
    frame_element_stiffness env ji jj sec mat =
      Except.error "Frame element has zero length" := by
  unfold frame_element_stiffness
  rw [if_pos hL]

theorem frame_transformation_matrix_ok (env : FloatEnv) (ji jj : Joint) (ori : ℚ)
    (hL : ¬((jj.x - ji.x) * (jj.x - ji.x) + (jj.y - ji.y) * (jj.y - ji.y) +
      (jj.z - ji.z) * (jj.z - ji.z) < (1 / 1000000 : ℚ) * (1 / 1000000))) :
    ∃ R, frame_transformation_matrix env ji jj ori = Except.ok R := by
  unfold frame_transformation_matrix
  rw [if_neg hL]
  exact ⟨_, rfl⟩

theorem assembleOne_skeleton (env : FloatEnv) (m : StructuralModel)
    (sj : List Joint) (idx : List (Int × ℕ)) (fr : Frame) :
    (∀ sparse K, assembleOne env m sj idx sparse K fr = Except.ok K) ∨
    (∃ e, ∀ sparse K, assembleOne env m sj idx sparse K fr = Except.error e) ∨
    (∃ a b kg, a ≠ b ∧ (∀ i j, kg i j = kg j i) ∧
      (∀ K, assembleOne env m sj idx true K fr =
        Except.ok (assemble_sparse K kg (elementDofs a b))) ∧
      (∀ K, assembleOne env m sj idx false K fr =
        Except.ok (assemble_global K kg (elementDofs a b)))) := by
  cases hI : dictGet idx fr.jointI with
  | none => exact Or.inl (fun sparse K => by simp only [assembleOne, hI])
  | some a =>
  cases hJ : dictGet idx fr.jointJ with
  | none => exact Or.inl (fun sparse K => by simp only [assembleOne, hI, hJ])
  | some b =>
  cases hS : sectionFind m fr.sectionId with
  | none => exact Or.inl (fun sparse K => by simp only [assembleOne, hI, hJ, hS])
  | some sec =>
  cases hM : materialFind m sec.materialId with
  | none => exact Or.inl (fun sparse K => by simp only [assembleOne, hI, hJ, hS, hM])
  | some mat =>
  by_cases hL : ((sj.getD b dummyJoint).x - (sj.getD a dummyJoint).x) *
        ((sj.getD b dummyJoint).x - (sj.getD a dummyJoint).x) +
      ((sj.getD b dummyJoint).y - (sj.getD a dummyJoint).y) *
        ((sj.getD b dummyJoint).y - (sj.getD a dummyJoint).y) +
      ((sj.getD b dummyJoint).z - (sj.getD a dummyJoint).z) *
        ((sj.getD b dummyJoint).z - (sj.getD a dummyJoint).z) <
      (1 / 1000000 : ℚ) * (1 / 1000000)
  · refine Or.inr (Or.inl ⟨"Frame element has zero length", fun sparse K => ?_⟩)
    simp only [assembleOne, hI, hJ, hS, hM,
      frame_element_stiffness_err env _ _ sec mat hL, Bind.bind, Except.bind]
  · have hab : a ≠ b := by
      intro hc
      apply hL
      rw [hc]
      norm_num
    obtain ⟨p1, p2, p3, p4, p5, p6, p7, p8, hstiff⟩ :=
      frame_element_stiffness_ok env _ _ sec mat hL
    obtain ⟨R, hT⟩ := frame_transformation_matrix_ok env _ _ fr.orientation hL
    refine Or.inr (Or.inr ⟨a, b,
      transform_stiffness_to_global (kEntry p1 p2 p3 p4 p5 p6 p7 p8) (blockDiag4 R),
      hab, ?_, fun K => ?_, fun K => ?_⟩)
    · exact fun i j => transform_symm _ _
        (fun i j hi hj => kEntry_symm p1 p2 p3 p4 p5 p6 p7 p8 i j hi hj) i j
    · simp only [assembleOne, hI, hJ, hS, hM, hstiff, hT, Bind.bind, Except.bind,
        if_true]
    · simp only [assembleOne, hI, hJ, hS, hM, hstiff, hT, Bind.bind, Except.bind,
        Bool.false_eq_true, if_false]

theorem assembleElements_nil (env : FloatEnv) (m : StructuralModel)
    (sj : List Joint) (idx : List (Int × ℕ)) (sparse : Bool) (K : MatQ) :
    assembleElements env m sj idx sparse [] K = Except.ok K := rfl

theorem assembleElements_cons (env : FloatEnv) (m : StructuralModel)
    (sj : List Joint) (idx : List (Int × ℕ)) (sparse : Bool) (K : MatQ)
    (f : Frame) (t : List Frame) :
    assembleElements env m sj idx sparse (f :: t) K =
      (assembleOne env m sj idx sparse K f) >>= fun K1 =>
        assembleElements env m sj idx sparse t K1 := by
  unfold assembleElements
  rw [List.foldlM_cons]

theorem assembleOne_preserves_symm (env : FloatEnv) (m : StructuralModel)
    (sj : List Joint) (idx : List (Int × ℕ)) (sparse : Bool) (fr : Frame)
    (K K' : MatQ) (hK : ∀ r c, K r c = K c r)
    (h : assembleOne env m sj idx sparse K fr = Except.ok K') :
    ∀ r c, K' r c = K' c r := by
  rcases assembleOne_skeleton env m sj idx fr with hid | ⟨e, herr⟩ |
    ⟨a, b, kg, hab, hkg, hsp, hde⟩
  · rw [hid sparse K] at h
    injection h with h'
    subst h'
    exact hK
  · rw [herr sparse K] at h
    exact absurd h (by simp)
  · cases sparse
    · rw [hde K] at h
      injection h with h'
      subst h'
      intro r c
      rw [assemble_global_apply _ _ _ (elementDofs_nodup a b hab),
        assemble_global_apply _ _ _ (elementDofs_nodup a b hab), hK,
        cellSum_pairList_symm _ _ _ _ hkg]
    · rw [hsp K] at h
      injection h with h'
      subst h'
      intro r c
      rw [assemble_sparse_apply, assemble_sparse_apply, hK,
        cellSum_pairList_symm _ _ _ _ hkg]

theorem assembleElements_symm (env : FloatEnv) (m : StructuralModel)
    (sj : List Joint) (idx : List (Int × ℕ)) (sparse : Bool)
    (frames : List Frame) :
    ∀ (K0 : MatQ), (∀ r c, K0 r c = K0 c r) → ∀ K,
      assembleElements env m sj idx sparse frames K0 = Except.ok K →
      ∀ r c, K r c = K c r := by
  induction frames with
  | nil =>
    intro K0 h0 K h
    rw [assembleElements_nil] at h
    injection h with h'
    subst h'
    exact h0
  | cons f t ih =>
    intro K0 h0 K h
    rw [assembleElements_cons] at h
    obtain ⟨K1, h1, h2⟩ := (except_bind_ok _ _ _).1 h
    exact ih K1 (assembleOne_preserves_symm env m sj idx sparse f K0 K1 h0 h1) K h2

theorem assembleOne_agree (env : FloatEnv) (m : StructuralModel)
    (sj : List Joint) (idx : List (Int × ℕ)) (fr : Frame) (Kd Ks : MatQ)
    (hpt : ∀ r c, Ks r c = Kd r c) (Kd' : MatQ)
    (hd : assembleOne env m sj idx false Kd fr = Except.ok Kd') :
    ∃ Ks', assembleOne env m sj idx true Ks fr = Except.ok Ks' ∧
      ∀ r c, Ks' r c = Kd' r c := by
  rcases assembleOne_skeleton env m sj idx fr with hid | ⟨e, herr⟩ |
    ⟨a, b, kg, hab, hkg, hsp, hde⟩
  · rw [hid false Kd] at hd
    injection hd with h'
    subst h'
    exact ⟨Ks, hid true Ks, hpt⟩
  · rw [herr false Kd] at hd
    exact absurd hd (by simp)
  · rw [hde Kd] at hd
    injection hd with h'
    subst h'
    refine ⟨_, hsp Ks, fun r c => ?_⟩
    rw [assemble_sparse_apply,
      assemble_global_apply _ _ _ (elementDofs_nodup a b hab), hpt]

theorem assembleElements_agree (env : FloatEnv) (m : StructuralModel)
    (sj : List Joint) (idx : List (Int × ℕ)) (frames : List Frame) :
    ∀ (Kd Ks : MatQ), (∀ r c, Ks r c = Kd r c) → ∀ Kd',
      assembleElements env m sj idx false frames Kd = Except.ok Kd' →
      ∃ Ks', assembleElements env m sj idx true frames Ks = Except.ok Ks' ∧
        ∀ r c, Ks' r c = Kd' r c := by
  induction frames with
  | nil =>
    intro Kd Ks hpt Kd' hd
    rw [assembleElements_nil] at hd
    injection hd with h'
    subst h'
    exact ⟨Ks, assembleElements_nil env m sj idx true Ks, hpt⟩
  | cons f t ih =>
    intro Kd Ks hpt Kd' hd
    rw [assembleElements_cons] at hd
    obtain ⟨K1, h1, h2⟩ := (except_bind_ok _ _ _).1 hd
    obtain ⟨Ks1, hs1, hpt1⟩ := assembleOne_agree env m sj idx f Kd Ks hpt K1 h1
    obtain ⟨Ks', hs', hpt'⟩ := ih K1 Ks1 hpt1 Kd' h2
    refine ⟨Ks', ?_, hpt'⟩
    rw [assembleElements_cons]
    rw [(except_bind_ok _ _ _).2 ⟨Ks1, hs1, hs'⟩]

/-- C7: the assembled global stiffness matrix is symmetric — for every model
data and element list, whenever the assembly loop succeeds (on either storage
path) starting from a symmetric matrix, the result satisfies
`K[r][c] = K[c][r]` exactly: each element's local stiffness is symmetric and
the congruence transform `Tᵀ·Kₗ·T` preserves symmetry. -/
theorem C7_assembled_stiffness_symmetric (env : FloatEnv) (m : StructuralModel)
    (sj : List Joint) (idx : List (Int × ℕ)) (use_sparse : Bool)
    (frames : List Frame) (K0 : MatQ) (hK0 : ∀ r c, K0 r c = K0 c r)
    (K : MatQ) (h : assembleElements env m sj idx use_sparse frames K0 = Except.ok K) :
    ∀ r c, K r c = K c r :=
  assembleElements_symm env m sj idx use_sparse frames K0 hK0 K h

/-- C7 witness: the one-element beam assembles on the dense path and the
result is symmetric at the off-diagonal pair `(0, 6)`. -/
theorem C7_witness :
    ((assembleElements envW modelBeamW modelBeamW.joints (idxDict0 modelBeamW.joints)
      false modelBeamW.frames zeroMat).toOption.getD zeroMat) 0 6 =
    ((assembleElements envW modelBeamW modelBeamW.joints (idxDict0 modelBeamW.joints)
      false modelBeamW.frames zeroMat).toOption.getD zeroMat) 6 0 :=
  C7_assembled_stiffness_symmetric envW modelBeamW modelBeamW.joints
    (idxDict0 modelBeamW.joints) false modelBeamW.frames zeroMat
    (fun _ _ => rfl) _ (by with_unfolding_all rfl) 0 6

/-- C8: the sparse and dense assembly paths add identical contributions at
identical DOF indices — entrywise equal for any element scatter with
pairwise-distinct DOF indices, and entrywise equal matrices for any whole
assembly run that the dense path completes; and the sparse path is selected
exactly when the sparse option is enabled and the total DOF count exceeds
100. -/
theorem C8_sparse_dense_equivalence :
    (∀ (K : MatQ) (k : ℕ → ℕ → ℚ) (dofs : List ℕ), dofs.Nodup → ∀ r c,
      assemble_sparse K k dofs r c = assemble_global K k dofs r c) ∧
    (∀ (env : FloatEnv) (m : StructuralModel) (sj : List Joint)
      (idx : List (Int × ℕ)) (frames : List Frame) (K0 Kd : MatQ),
      assembleElements env m sj idx false frames K0 = Except.ok Kd →
      ∃ Ks, assembleElements env m sj idx true frames K0 = Except.ok Ks ∧
        ∀ r c, Ks r c = Kd r c) ∧
    (∀ (config : SolverConfig) (total_dof : ℕ),
      useSparse config total_dof = true ↔
        (config.use_sparse_solver = true ∧ 100 < total_dof)) := by
  refine ⟨fun K k dofs h r c => ?_,
    fun env m sj idx frames K0 Kd hd => ?_, fun config d => ?_⟩
  · rw [assemble_sparse_apply, assemble_global_apply _ _ _ h]
  · exact assembleElements_agree env m sj idx frames K0 K0 (fun _ _ => rfl) Kd hd
  · simp [useSparse]

/-- C8 witness: concrete instances of all three conjuncts — a two-DOF
scatter agrees entrywise, the one-element beam assembles identically on both
paths at entry `(0, 0)`, and a 200-DOF system with the sparse option enabled
selects the sparse path. -/
theorem C8_witness :
    (assemble_sparse zeroMat (fun _ _ => 1) [6, 7] 6 6 =
      assemble_global zeroMat (fun _ _ => 1) [6, 7] 6 6) ∧
    useSparse ⟨6, true, true⟩ 200 = true ∧
    ((assembleElements envW modelBeamW modelBeamW.joints (idxDict0 modelBeamW.joints)
        true modelBeamW.frames zeroMat).toOption.getD zeroMat) 0 0 =
      ((assembleElements envW modelBeamW modelBeamW.joints (idxDict0 modelBeamW.joints)
        false modelBeamW.frames zeroMat).toOption.getD zeroMat) 0 0 := by
  refine ⟨C8_sparse_dense_equivalence.1 zeroMat (fun _ _ => 1) [6, 7] (by decide) 6 6,
    (C8_sparse_dense_equivalence.2.2 ⟨6, true, true⟩ 200).2 ⟨rfl, by omega⟩, ?_⟩
  obtain ⟨Ks, hKs, hpt⟩ := C8_sparse_dense_equivalence.2.1 envW modelBeamW
    modelBeamW.joints (idxDict0 modelBeamW.joints) modelBeamW.frames zeroMat
    ((assembleElements envW modelBeamW modelBeamW.joints (idxDict0 modelBeamW.joints)
      false modelBeamW.frames zeroMat).toOption.getD zeroMat)
    (by with_unfolding_all rfl)
  rw [hKs]
  exact hpt 0 0

theorem dictGet_dictInsert_self {κ ν : Type} [DecidableEq κ]
    (l : List (κ × ν)) (k : κ) (v : ν) :
    dictGet (dictInsert l k v) k = some v := by
  unfold dictInsert dictGet
  split_ifs with h
  · induction l with
    | nil => simp at h
    | cons e t ih =>
      by_cases he : e.1 = k
      · simp [List.find?_cons_of_pos, he]
      · rw [List.map_cons, if_neg he, List.find?_cons_of_neg _ (by simpa using he)]
        apply ih
        simpa [he] using h
  · induction l with
    | nil => simp [List.find?]
    | cons e t ih =>
      simp only [List.any_cons, Bool.or_eq_true, not_or] at h
      rw [List.cons_append, List.find?_cons_of_neg _ (by simpa using h.1)]
      exact ih (by simpa using h.2)

theorem find?_map_replace {κ ν : Type} [DecidableEq κ]
    (l : List (κ × ν)) (k k' : κ) (v : ν) (hne : k' ≠ k) :
    (l.map (fun e => if e.1 = k then (k, v) else e)).find?
        (fun e => decide (e.1 = k')) =
      l.find? (fun e => decide (e.1 = k')) := by
  induction l with
  | nil => rfl
  | cons e t ih =>
    by_cases he : e.1 = k
    · rw [List.map_cons, if_pos he,
        List.find?_cons_of_neg _ (by simp; exact fun hc => hne hc.symm),
        List.find?_cons_of_neg _ (by simp [he]; exact fun hc => hne (hc ▸ he ▸ rfl))]
      exact ih
    · rw [List.map_cons, if_neg he]
      by_cases he' : e.1 = k'
      · rw [List.find?_cons_of_pos _ (by simpa using he'),
          List.find?_cons_of_pos _ (by simpa using he')]
      · rw [List.find?_cons_of_neg _ (by simpa using he'),
          List.find?_cons_of_neg _ (by simpa using he')]
        exact ih

theorem dictGet_dictInsert_ne {κ ν : Type} [DecidableEq κ]
    (l : List (κ × ν)) (k k' : κ) (v : ν) (hne : k' ≠ k) :
    dictGet (dictInsert l k v) k' = dictGet l k' := by
  unfold dictInsert dictGet
  split_ifs with h
  · rw [find?_map_replace l k k' v hne]
  · induction l with
    | nil =>
      simp only [List.nil_append]
      rw [List.find?_cons_of_neg _ (by simp; exact fun hc => hne hc.symm)]
    | cons e t ih =>
      simp only [List.any_cons, Bool.or_eq_true, not_or] at h
      by_cases he' : e.1 = k'
      · rw [List.cons_append, List.find?_cons_of_pos _ (by simpa using he'),
          List.find?_cons_of_pos _ (by simpa using he')]
      · rw [List.cons_append, List.find?_cons_of_neg _ (by simpa using he'),
          List.find?_cons_of_neg _ (by simpa using he')]
        exact ih (by simpa using h.2)

theorem dictGet_dictInsert_isSome {κ ν : Type} [DecidableEq κ]
    (l : List (κ × ν)) (k k' : κ) (v : ν)
    (h : (dictGet l k').isSome) : (dictGet (dictInsert l k v) k').isSome := by
  by_cases he : k' = k
  · subst he
    rw [dictGet_dictInsert_self]
    rfl
  · rw [dictGet_dictInsert_ne l k k' v he]
    exact h

theorem dictInsert_entry_mem {κ ν : Type} [DecidableEq κ]
    (l : List (κ × ν)) (k : κ) (v : ν) (e : κ × ν)
    (he : e ∈ dictInsert l k v) : e ∈ l ∨ e = (k, v) := by
  unfold dictInsert at he
  split_ifs at he with h
  · obtain ⟨x, hx, hxe⟩ := List.mem_map.1 he
    by_cases hk : x.1 = k
    · right
      rw [if_pos hk] at hxe
      exact hxe.symm
    · left
      rw [if_neg hk] at hxe
      exact hxe ▸ hx
  · rcases List.mem_append.1 he with h1 | h1
    · exact Or.inl h1
    · right
      simpa using h1

theorem meshInner_fold_fmap (startJ endJ : Joint) (fr : Frame) (S : ℕ)
    (l : List ℕ) : ∀ (st : MeshSt) (prev : ℕ) (inds : List ℕ),
    (l.foldl (meshInner startJ endJ fr S) (st, prev, inds)).1.fmap = st.fmap := by
  induction l with
  | nil => intro st prev inds; rfl
  | cons i t ih => intro st prev inds; rw [List.foldl_cons]; exact ih _ _ _

theorem meshInner_fold_inds_length (startJ endJ : Joint) (fr : Frame) (S : ℕ)
    (l : List ℕ) : ∀ (st : MeshSt) (prev : ℕ) (inds : List ℕ),
    (l.foldl (meshInner startJ endJ fr S) (st, prev, inds)).2.2.length =
      inds.length + l.length := by
  induction l with
  | nil => intro st prev inds; rfl
  | cons i t ih =>
    intro st prev inds
    rw [List.foldl_cons]
    have := ih (meshInner startJ endJ fr S (st, prev, inds) i).1
      (meshInner startJ endJ fr S (st, prev, inds) i).2.1
      (meshInner startJ endJ fr S (st, prev, inds) i).2.2
    simp only [meshInner, List.length_append, List.length_cons, List.length_nil] at this ⊢
    omega

theorem meshFrame_fmap_entry (S : ℕ) (hS : 1 ≤ S) (st : MeshSt) (fr : Frame)
    (e : Int × List ℕ) (he : e ∈ (meshFrame S st fr).fmap) :
    e ∈ st.fmap ∨ e.2.length = S + 1 := by
  unfold meshFrame at he
  cases hI : dictGet st.idx fr.jointI with
  | none => rw [hI] at he; left; exact he
  | some a =>
    cases hJ : dictGet st.idx fr.jointJ with
    | none => rw [hI, hJ] at he; left; exact he
    | some b =>
      rw [hI, hJ] at he
      simp only at he
      rcases dictInsert_entry_mem _ _ _ _ he with h1 | h1
      · rw [meshInner_fold_fmap] at h1
        exact Or.inl h1
      · right
        rw [h1]
        simp only [List.length_append, List.length_cons, List.length_nil]
        have hlen := meshInner_fold_inds_length (st.sj.getD a dummyJoint)
          (st.sj.getD b dummyJoint) fr S (List.range' 1 (S - 1)) st a [a]
        rw [List.length_range'] at hlen
        simp only [List.length_cons, List.length_nil] at hlen
        omega

theorem meshAll_fold_fmap_entry (S : ℕ) (hS : 1 ≤ S) (frames : List Frame) :
    ∀ (st : MeshSt), (∀ e ∈ st.fmap, e.2.length = S + 1) →
    ∀ e ∈ (frames.foldl (meshFrame S) st).fmap, e.2.length = S + 1 := by
  induction frames with
  | nil => intro st h e he; exact h e he
  | cons f t ih =>
    intro st h e he
    rw [List.foldl_cons] at he
    refine ih (meshFrame S st f) (fun e' he' => ?_) e he
    rcases meshFrame_fmap_entry S hS st f e' he' with h1 | h1
    · exact h e' h1
    · exact h1

theorem meshAll_fmap_lengths (S : ℕ) (hS : 1 ≤ S) (m : StructuralModel)
    (log : List String) :
    ∀ e ∈ (meshAll S m log).fmap, e.2.length = S + 1 := by
  unfold meshAll
  exact meshAll_fold_fmap_entry S hS m.frames _ (fun e he => absurd he (List.not_mem_nil e))

theorem clampSegments_pos (n : Int) : 1 ≤ clampSegments n := by
  unfold clampSegments
  omega

theorem buildFdrs_entry (sj : List Joint) (u : VecQ) (fmap : List (Int × List ℕ))
    (e : Int × DetailedFrameResult) (he : e ∈ buildFdrs sj u fmap) :
    ∃ inds, (e.1, inds) ∈ fmap ∧
      e.2.stations = (List.range inds.length).map
        (fun i : ℕ => (i : ℚ) / ((inds.length - 1 : ℕ) : ℚ)) ∧
      e.2.displacements.length = inds.length ∧
      e.2.forces.length = inds.length := by
  obtain ⟨x, hx, hxe⟩ := List.mem_map.1 he
  refine ⟨x.2, ?_, ?_, ?_, ?_⟩
  · rw [← hxe]; exact hx
  · rw [← hxe]
  · rw [← hxe]; simp
  · rw [← hxe]; simp

theorem forces_fold_length (sj : List Joint) (env : FloatEnv) (sec : FrameSection)
    (mat : Material) (ori : ℚ) (u : VecQ) (indices : List ℕ) (l : List ℕ) :
    ∀ (forces : List FrameForces),
    (l.foldl (fun forces i =>
      let idx_a := indices.getD i 0
      let idx_b := indices.getD (i + 1) 0
      let node_a := sj.getD idx_a dummyJoint
      let node_b := sj.getD idx_b dummyJoint
      let fs := calculate_segment_forces env node_a node_b
        (uSlice u idx_a) (uSlice u idx_b) sec mat ori
      let forces1 := if i < forces.length then forces.set i fs.1 else forces
      if i = indices.length - 2 then forces1.set (i + 1) fs.2 else forces1)
      forces).length = forces.length := by
  induction l with
  | nil => intro forces; rfl
  | cons i t ih =>
    intro forces
    rw [List.foldl_cons]
    rw [ih]
    dsimp only
    split_ifs <;> simp [List.length_set]

theorem forcePassOne_shape (env : FloatEnv) (m : StructuralModel) (sj : List Joint)
    (fmap : List (Int × List ℕ)) (u : VecQ) (e : Int × DetailedFrameResult) :
    (forcePassOne env m sj fmap u e).1 = e.1 ∧
    (forcePassOne env m sj fmap u e).2.stations = e.2.stations ∧
    (forcePassOne env m sj fmap u e).2.displacements = e.2.displacements ∧
    (forcePassOne env m sj fmap u e).2.forces.length = e.2.forces.length := by
  cases hF : m.frames.find? (fun f => decide (f.id = e.1)) with
  | none => simp [forcePassOne, hF]
  | some fr =>
    cases hS : sectionFind m fr.sectionId with
    | none => simp [forcePassOne, hF, hS]
    | some sec =>
      cases hM : materialFind m sec.materialId with
      | none => simp [forcePassOne, hF, hS, hM]
      | some mat =>
        cases hG : dictGet fmap e.1 with
        | none => simp [forcePassOne, hF, hS, hM, hG]
        | some indices =>
          refine ⟨?_, ?_, ?_, ?_⟩ <;>
            simp only [forcePassOne, hF, hS, hM, hG]
          exact forces_fold_length sj env sec mat fr.orientation u indices
            (List.range (indices.length - 1)) e.2.forces

theorem forcePass_entry (env : FloatEnv) (m : StructuralModel) (sj : List Joint)
    (fmap : List (Int × List ℕ)) (u : VecQ)
    (fdrs : List (Int × DetailedFrameResult)) (e : Int × DetailedFrameResult)
    (he : e ∈ forcePass env m sj fmap u fdrs) :
    ∃ e0 ∈ fdrs, e.1 = e0.1 ∧ e.2.stations = e0.2.stations ∧
      e.2.displacements = e0.2.displacements ∧
      e.2.forces.length = e0.2.forces.length := by
  obtain ⟨x, hx, hxe⟩ := List.mem_map.1 he
  obtain ⟨h1, h2, h3, h4⟩ := forcePassOne_shape env m sj fmap u x
  exact ⟨x, hx, by rw [← hxe, h1], by rw [← hxe, h2], by rw [← hxe, h3], by rw [← hxe, h4]⟩

theorem tryBlock_ok_shape (env : FloatEnv) (m : StructuralModel) (lcid : String)
    (config : SolverConfig) (log1 : List String) (res : AnalysisResults)
    (h : tryBlock env m lcid config log1 = Except.ok res) :
    ∃ u : VecQ, res.frameDetailedResults = some
      ((forcePass env m
          (meshAll (clampSegments config.meshing_segments) m
            (log1 ++ ["Starting analysis..."])).sj
          (meshAll (clampSegments config.meshing_segments) m
            (log1 ++ ["Starting analysis..."])).fmap u
          (buildFdrs
            (meshAll (clampSegments config.meshing_segments) m
              (log1 ++ ["Starting analysis..."])).sj u
            (meshAll (clampSegments config.meshing_segments) m
              (log1 ++ ["Starting analysis..."])).fmap)).map
        (fun e => (toString e.1, e.2))) ∧ res.isValid = true := by
  unfold tryBlock at h
  split at h
  · exact absurd h (by simp)
  · dsimp only at h
    split at h
    · exact absurd h (by simp)
    · split at h
      · exact absurd h (by simp)
      · injection h with h'
        subst h'
        exact ⟨_, rfl, rfl⟩

theorem analyze_ok_shape (env : FloatEnv) (model : StructuralModel) (lcid : String)
    (cfgO : Option SolverConfig) (res : AnalysisResults)
    (h : analyze_structure env model lcid cfgO = Except.ok res) :
    ∃ m' log1,
      (if (cfgO.getD {}).enable_intersection_check then
        preprocess_intersections model = Except.ok m' ∧
          log1 = ["Running intersection detection..."]
       else m' = model ∧ log1 = ["Skipping intersection detection (disabled in config)"]) ∧
      ((∃ r, tryBlock env m' lcid (cfgO.getD {}) log1 = Except.ok r ∧ res = r) ∨
       (∃ e, tryBlock env m' lcid (cfgO.getD {}) log1 = Except.error e ∧
         res = ⟨lcid, none, [], none, [], false, 0, e.2 ++ ["Error: " ++ e.1]⟩)) := by
  unfold analyze_structure at h
  dsimp only at h
  cases hen : (cfgO.getD {}).enable_intersection_check with
  | true =>
    rw [hen] at h
    simp only [if_true] at h
    cases hp : preprocess_intersections model with
    | error e =>
      rw [hp] at h
      exact absurd h (by simp [Except.map, Bind.bind, Except.bind])
    | ok m' =>
      rw [hp] at h
      simp only [Except.map, Bind.bind, Except.bind] at h
      refine ⟨m', ["Running intersection detection..."], by simp [hen], ?_⟩
      cases ht : tryBlock env m' lcid (cfgO.getD {}) ["Running intersection detection..."] with
      | ok r =>
        rw [ht] at h
        injection h with h'
        exact Or.inl ⟨r, rfl, h'.symm⟩
      | error e =>
        rw [ht] at h
        injection h with h'
        exact Or.inr ⟨e, rfl, h'.symm⟩
  | false =>
    rw [hen] at h
    simp only [Bool.false_eq_true, if_false, Bind.bind, Except.bind] at h
    refine ⟨model, ["Skipping intersection detection (disabled in config)"], by simp [hen], ?_⟩
    cases ht : tryBlock env model lcid (cfgO.getD {})
        ["Skipping intersection detection (disabled in config)"] with
    | ok r =>
      rw [ht] at h
      injection h with h'
      exact Or.inl ⟨r, rfl, h'.symm⟩
    | error e =>
      rw [ht] at h
      injection h with h'
      exact Or.inr ⟨e, rfl, h'.symm⟩

theorem stations_pairwise_lt (N : ℕ) (hN : 1 ≤ N) :
    ((List.range (N + 1)).map (fun i : ℕ => (i : ℚ) / (N : ℚ))).Pairwise (· < ·) := by
  rw [@List.pairwise_map ℕ ℚ (fun i : ℕ => (i : ℚ) / (N : ℚ)) (· < ·) (List.range (N + 1))]
  refine (List.pairwise_lt_range (N + 1)).imp ?_
  intro a b hab
  have hN0 : (0 : ℚ) < (N : ℚ) := by exact_mod_cast hN
  have hab' : (a : ℚ) < (b : ℚ) := by exact_mod_cast hab
  exact div_lt_div_of_pos_right hab' hN0

/-- C2: for every key present in `frameDetailedResults` of a successful
analyze, the stations, displacements and forces lists all have length `N+1`,
where `N` is `meshing_segments` clamped to `[1, 20]`, and the stations are
exactly `i/N` for `i = 0..N`, strictly increasing from `0` to `1` in uniform
steps. -/
theorem C2_station_counts (env : FloatEnv) (model : StructuralModel)
    (lcid : String) (cfg : SolverConfig) (res : AnalysisResults)
    (h : analyze_structure env model lcid (some cfg) = Except.ok res)
    (hv : res.isValid = true) (key : String) (fdr : DetailedFrameResult)
    (hmem : (key, fdr) ∈ res.frameDetailedResults.getD []) :
    fdr.stations.length = clampSegments cfg.meshing_segments + 1 ∧
    fdr.displacements.length = clampSegments cfg.meshing_segments + 1 ∧
    fdr.forces.length = clampSegments cfg.meshing_segments + 1 ∧
    fdr.stations = (List.range (clampSegments cfg.meshing_segments + 1)).map
      (fun i : ℕ => (i : ℚ) / ((clampSegments cfg.meshing_segments : ℕ) : ℚ)) ∧
    fdr.stations.Pairwise (· < ·) := by
  obtain ⟨m', log1, -, htry⟩ := analyze_ok_shape env model lcid (some cfg) res h
  rcases htry with ⟨r, htr, hres⟩ | ⟨e, htr, hres⟩
  · subst hres
    obtain ⟨u, hfdr, -⟩ := tryBlock_ok_shape env m' lcid (Option.getD (some cfg) {}) log1 res htr
    rw [hfdr] at hmem
    simp only [Option.getD_some] at hmem hfdr
    obtain ⟨x, hx, hxe⟩ := List.mem_map.1 hmem
    obtain ⟨e0, he0, -, hst, hdisp, hflen⟩ :=
      forcePass_entry _ _ _ _ u _ x hx
    obtain ⟨inds, hinds, hst0, hdlen0, hflen0⟩ := buildFdrs_entry _ u _ e0 he0
    have hN := meshAll_fmap_lengths (clampSegments cfg.meshing_segments)
      (clampSegments_pos cfg.meshing_segments) m' (log1 ++ ["Starting analysis..."])
      (e0.1, inds) hinds
    simp only at hN
    have hfdr2 : fdr = x.2 := by
      have hc := congrArg Prod.snd hxe
      simp only at hc
      exact hc.symm
    have hNpos := clampSegments_pos cfg.meshing_segments
    refine ⟨?_, ?_, ?_, ?_, ?_⟩
    · rw [hfdr2, hst, hst0, List.length_map, List.length_range, hN]
    · rw [hfdr2, hdisp, hdlen0, hN]
    · rw [hfdr2, hflen, hflen0, hN]
    · rw [hfdr2, hst, hst0, hN]
      simp
    · rw [hfdr2, hst, hst0, hN]
      have := stations_pairwise_lt (clampSegments cfg.meshing_segments) hNpos
      simpa using this
  · subst hres
    simp at hv

/-- C2 witness: running the beam-without-section model with `meshing_segments = 3`
(intersection check and sparse solver off), the first detailed frame entry of the
successful result has stations `0, 1/3, 2/3, 1` — the `i/N` grid — and they are
strictly increasing; obtained by applying `C2_station_counts` at this run. -/
theorem C2_witness :
    (((((analyze_structure envW modelNoSec "LC" (some ⟨3, false, false⟩)).toOption.getD
        emptyResults).frameDetailedResults.getD []).getD 0 ("", dfrTwo)).2).stations =
      (List.range (clampSegments 3 + 1)).map
        (fun i : ℕ => (i : ℚ) / ((clampSegments 3 : ℕ) : ℚ)) ∧
    ((((((analyze_structure envW modelNoSec "LC" (some ⟨3, false, false⟩)).toOption.getD
        emptyResults).frameDetailedResults.getD []).getD 0 ("", dfrTwo)).2).stations).Pairwise
      (· < ·) := by
  have h := C2_station_counts envW modelNoSec "LC" ⟨3, false, false⟩
    ((analyze_structure envW modelNoSec "LC" (some ⟨3, false, false⟩)).toOption.getD emptyResults)
    (by with_unfolding_all rfl)
    (by with_unfolding_all rfl)
    (((((analyze_structure envW modelNoSec "LC" (some ⟨3, false, false⟩)).toOption.getD
        emptyResults).frameDetailedResults.getD []).getD 0 ("", dfrTwo)).1)
    (((((analyze_structure envW modelNoSec "LC" (some ⟨3, false, false⟩)).toOption.getD
        emptyResults).frameDetailedResults.getD []).getD 0 ("", dfrTwo)).2)
    (by with_unfolding_all decide)
  exact ⟨h.2.2.2.1, h.2.2.2.2⟩

/-- An invariant preserved by every step of a `foldl` holds of the result. -/
theorem foldl_preserves {α β : Type} (P : α → Prop) (f : α → β → α)
    (hstep : ∀ a b, P a → P (f a b)) :
    ∀ (l : List β) (a : α), P a → P (l.foldl f a)
  | [], _, h => h
  | b :: l, a, h => foldl_preserves P f hstep l (f a b) (hstep a b h)

/-- An invariant preserved by every successful step of an `Except`-valued
`foldlM` holds of a successful result. -/
theorem foldlM_ok_preserves {α β : Type} (P : α → Prop)
    (f : α → β → Except String α)
    (hstep : ∀ a b a', P a → f a b = Except.ok a' → P a') :
    ∀ (l : List β) (a res : α), P a → l.foldlM f a = Except.ok res → P res := by
  intro l
  induction l with
  | nil =>
    intro a res h hfold
    simp only [List.foldlM_nil] at hfold
    injection hfold with h'
    exact h' ▸ h
  | cons b l ih =>
    intro a res h hfold
    simp only [List.foldlM_cons] at hfold
    cases hfb : f a b with
    | error e =>
      rw [hfb] at hfold
      exact absurd hfold (by simp [Bind.bind, Except.bind])
    | ok a' =>
      rw [hfb] at hfold
      simp only [Bind.bind, Except.bind] at hfold
      exact ih a' res (hstep a b a' h hfb) hfold

/-- The seed of a running `foldl max` never exceeds the result. -/
theorem foldl_max_init_le : ∀ (l : List Int) (a : Int), a ≤ l.foldl max a
  | [], _ => le_refl _
  | b :: l, a =>
    le_trans (le_max_left a b) (foldl_max_init_le l (max a b))

/-- Every member of a list is bounded by a running `foldl max` over it. -/
theorem foldl_max_mem_le : ∀ (l : List Int) (a x : Int), x ∈ l → x ≤ l.foldl max a
  | c :: l, a, x, hx => by
    rcases List.mem_cons.1 hx with h | h
    · subst h
      exact le_trans (le_max_right a x) (foldl_max_init_le l (max a x))
    · exact foldl_max_mem_le l (max a c) x h

/-- Every member of a list is bounded by `listMaxInt` of the list. -/
theorem listMaxInt_le (l : List Int) (x : Int) (hx : x ∈ l) : x ≤ listMaxInt l := by
  cases l with
  | nil => cases hx
  | cons b l =>
    rcases List.mem_cons.1 hx with h | h
    · exact h ▸ foldl_max_init_le l b
    · exact foldl_max_mem_le l b x h

/-- Invariant for the split-walking fold: a step that appends frames carrying
the current `nfid` and bumps the counter keeps every accumulated frame either
original or tagged with an id at least the starting counter. -/
theorem foldl_pair_inv (st0 : SplitApplySt)
    (f : SplitApplySt × Int → (ℚ × V3) → SplitApplySt × Int)
    (hf : ∀ s e, (f s e).1.nfid = s.1.nfid + 1 ∧
      ∀ fr ∈ (f s e).1.frames, fr ∈ s.1.frames ∨ fr.id = s.1.nfid) :
    ∀ (sorted : List (ℚ × V3)) (s : SplitApplySt × Int),
      st0.nfid ≤ s.1.nfid →
      (∀ fr ∈ s.1.frames, fr ∈ st0.frames ∨ st0.nfid ≤ fr.id) →
      st0.nfid ≤ (sorted.foldl f s).1.nfid ∧
        ∀ fr ∈ (sorted.foldl f s).1.frames, fr ∈ st0.frames ∨ st0.nfid ≤ fr.id
  | [], _, h1, h2 => ⟨h1, h2⟩
  | e :: rest, s, h1, h2 => by
    have hstep := hf s e
    refine foldl_pair_inv st0 f hf rest (f s e) ?_ ?_
    · rw [hstep.1]; omega
    · intro fr hfr
      rcases hstep.2 fr hfr with h | h
      · exact h2 fr h
      · exact Or.inr (h ▸ h1)

/-- `processSplitFrame` only adds sub-frames whose ids are at least the
incoming frame-id counter, and never lowers the counter. -/
theorem processSplitFrame_inv (original : Frame) (sorted : List (ℚ × V3))
    (st0 : SplitApplySt) :
    st0.nfid ≤ (processSplitFrame original sorted st0).nfid ∧
    ∀ fr ∈ (processSplitFrame original sorted st0).frames,
      fr ∈ st0.frames ∨ st0.nfid ≤ fr.id := by
  have key := foldl_pair_inv st0 (splitStep original)
    (fun s e => by
      unfold splitStep
      dsimp only
      split
      · exact ⟨rfl, fun fr hfr => by
          rcases List.mem_append.1 hfr with h | h
          · exact Or.inl h
          · simp only [List.mem_singleton] at h
            exact Or.inr (by rw [h])⟩
      · exact ⟨rfl, fun fr hfr => by
          rcases List.mem_append.1 hfr with h | h
          · exact Or.inl h
          · simp only [List.mem_singleton] at h
            exact Or.inr (by rw [h])⟩)
    sorted (st0, original.jointI) le_rfl (fun fr hfr => Or.inl hfr)
  unfold processSplitFrame
  dsimp only
  constructor
  · exact le_trans key.1 (by omega)
  · intro fr hfr
    rcases List.mem_append.1 hfr with h | h
    · exact key.2 fr h
    · simp only [List.mem_singleton] at h
      exact Or.inr (by rw [h]; exact key.1)

/-- After a successful split application, no frame of the rebuilt model
carries the id of a frame that was split: the kept frames exclude it by the
filter, and the generated sub-frames start numbering above the model's
maximum frame id. -/
theorem applySplits_fresh (m : StructuralModel) (splits : SplitsMap)
    (m' : StructuralModel) (h : applySplits m splits = Except.ok m')
    (fid : Int) (hsp : (dictGet splits fid).isSome)
    (hmem : fid ∈ m.frames.map (·.id)) :
    ∀ fr ∈ m'.frames, fr.id ≠ fid := by
  have hfidlt : fid < listMaxInt (m.frames.map (·.id)) + 1 := by
    have := listMaxInt_le (m.frames.map (·.id)) fid hmem
    omega
  unfold applySplits at h
  split at h
  · rename_i hemp
    cases splits with
    | nil => simp [dictGet] at hsp
    | cons a l => simp [List.isEmpty] at hemp
  · dsimp only at h
    simp only [Bind.bind, Except.bind] at h
    cases hfold : splits.foldlM (fun st e =>
        match m.frames.find? (fun f => decide (f.id = e.1)) with
        | none => Except.error "StopIteration"
        | some original => Except.ok (processSplitFrame original (sortByKey e.2) st))
        (⟨m.joints,
          if m.joints.isEmpty then 1 else listMaxInt (m.joints.map (·.id)) + 1,
          m.frames.filter (fun f => decide ((dictGet splits f.id).isNone)),
          listMaxInt (m.frames.map (·.id)) + 1⟩ : SplitApplySt) with
    | error e =>
      rw [hfold] at h
      cases h
    | ok stF =>
      rw [hfold] at h
      injection h with h'
      have hinv := foldlM_ok_preserves
        (fun st : SplitApplySt =>
          listMaxInt (m.frames.map (·.id)) + 1 ≤ st.nfid ∧
            ∀ fr ∈ st.frames, fr.id ≠ fid)
        _ ?_ splits _ stF ⟨le_rfl, ?_⟩ hfold
      · intro fr hfr
        have : fr ∈ stF.frames := by rw [← h'] at hfr; exact hfr
        exact hinv.2 fr this
      · intro a b a' ha hstep
        split at hstep
        · cases hstep
        · injection hstep with h2
          rename_i original _
          have hps := processSplitFrame_inv original (sortByKey b.2) a
          subst h2
          refine ⟨le_trans ha.1 hps.1, fun fr hfr => ?_⟩
          rcases hps.2 fr hfr with hin | hge
          · exact ha.2 fr hin
          · intro hcontra
            rw [hcontra] at hge
            omega
      · intro fr hfr
        simp only [List.mem_filter, decide_eq_true_eq] at hfr
        intro hcontra
        rw [hcontra] at hfr
        rw [Option.isSome_iff_ne_none] at hsp
        exact hsp (Option.isNone_iff_eq_none.1 hfr.2)

/-- C10: when the intersection preprocessor splits a frame, the replacement
sub-frames carry freshly allocated ids, so the original frame's id matches no
frame of the preprocessed model; a distributed load addressing that id is
then skipped by the load-application loop, returning the global load vector
unchanged (and writing nothing to the log). -/
theorem C10_split_frame_load_skipped (env : FloatEnv)
    (model m' : StructuralModel) (splits : SplitsMap)
    (hsp : computeFrameSplits model = Except.ok splits)
    (hpre : preprocess_intersections model = Except.ok m')
    (f : Frame) (hf : f ∈ model.frames)
    (hsplit : (dictGet splits f.id).isSome)
    (fmap : List (Int × List ℕ)) (sj : List Joint) (scale : ℚ) (F : VecQ)
    (load : DistributedFrameLoad) (hld : load.frameId = f.id) :
    (∀ fr ∈ m'.frames, fr.id ≠ f.id) ∧
    applyDistLoadOne env m' fmap sj scale F load = Except.ok F := by
  unfold preprocess_intersections at hpre
  rw [hsp] at hpre
  simp only [Bind.bind, Except.bind] at hpre
  have hfresh := applySplits_fresh model splits m' hpre f.id hsplit
    (List.mem_map_of_mem (·.id) hf)
  have hfind : m'.frames.find? (fun fr => decide (fr.id = load.frameId)) = none := by
    rw [List.find?_eq_none]
    intro fr hfr
    simp only [decide_eq_true_eq]
    rw [hld]
    exact hfresh fr hfr
  refine ⟨hfresh, ?_⟩
  unfold applyDistLoadOne
  rw [hfind]

/-- C10 witness: on the crossing-frames model the preprocessor splits frame 1,
and a uniform distributed load addressed to frame id 1 is skipped — applying
it to the preprocessed model returns the zero load vector unchanged; obtained
by applying `C10_split_frame_load_skipped` at this concrete run. -/
theorem C10_witness :
    (∀ fr ∈ ((preprocess_intersections modelCross).toOption.getD modelCross).frames,
      fr.id ≠ (modelCross.frames.getD 0 ⟨0, 0, 0, none, 0, 0, 0⟩).id) ∧
    applyDistLoadOne envW ((preprocess_intersections modelCross).toOption.getD modelCross)
      [] [] 1 zeroVec ⟨"L", 1, "P", "GlobalY", 2, 2, 0, 1⟩ = Except.ok zeroVec := by
  have h := C10_split_frame_load_skipped envW modelCross
    ((preprocess_intersections modelCross).toOption.getD modelCross)
    ((computeFrameSplits modelCross).toOption.getD [])
    (by with_unfolding_all rfl)
    (by with_unfolding_all rfl)
    (modelCross.frames.getD 0 ⟨0, 0, 0, none, 0, 0, 0⟩)
    (by with_unfolding_all decide)
    (by with_unfolding_all decide)
    [] [] 1 zeroVec ⟨"L", 1, "P", "GlobalY", 2, 2, 0, 1⟩
    (by with_unfolding_all decide)
  exact h

/-- Every `frame_mapping` key added by meshing one frame is that frame's id. -/
theorem meshFrame_fmap_key (S : ℕ) (st : MeshSt) (fr : Frame)
    (e : Int × List ℕ) (he : e ∈ (meshFrame S st fr).fmap) :
    e ∈ st.fmap ∨ e.1 = fr.id := by
  unfold meshFrame at he
  cases hI : dictGet st.idx fr.jointI with
  | none => rw [hI] at he; left; exact he
  | some a =>
    cases hJ : dictGet st.idx fr.jointJ with
    | none => rw [hI, hJ] at he; left; exact he
    | some b =>
      rw [hI, hJ] at he
      simp only at he
      rcases dictInsert_entry_mem _ _ _ _ he with h1 | h1
      · rw [meshInner_fold_fmap] at h1
        exact Or.inl h1
      · right
        rw [h1]

/-- Every `frame_mapping` key accumulated over the meshing fold comes from the
initial map or from one of the meshed frames. -/
theorem meshFold_fmap_keys (S : ℕ) :
    ∀ (frames : List Frame) (st : MeshSt) (e : Int × List ℕ),
      e ∈ (frames.foldl (meshFrame S) st).fmap →
      e ∈ st.fmap ∨ ∃ fr ∈ frames, e.1 = fr.id
  | [], _, _, he => Or.inl he
  | f :: t, st, e, he => by
    rw [List.foldl_cons] at he
    rcases meshFold_fmap_keys S t (meshFrame S st f) e he with h1 | h1
    · rcases meshFrame_fmap_key S st f e h1 with h2 | h2
      · exact Or.inl h2
      · exact Or.inr ⟨f, List.mem_cons_self f t, h2⟩
    · obtain ⟨fr, hfr, hid⟩ := h1
      exact Or.inr ⟨fr, List.mem_cons_of_mem f hfr, hid⟩

/-- Every `frame_mapping` key of the full mesh is the id of a model frame. -/
theorem meshAll_fmap_keys (S : ℕ) (m : StructuralModel) (log : List String)
    (e : Int × List ℕ) (he : e ∈ (meshAll S m log).fmap) :
    ∃ fr ∈ m.frames, e.1 = fr.id := by
  unfold meshAll at he
  rcases meshFold_fmap_keys S m.frames _ e he with h1 | h1
  · exact absurd h1 (List.not_mem_nil e)
  · exact h1

/-- C3 (amended): the keys of `frameDetailedResults` of a successful analyze
are stringified ids of frames of the model *after* intersection preprocessing
— a frame split by the preprocessor is replaced by fresh-id sub-frames, so
its original id need not appear. -/
theorem C3_keys_are_postmodel_ids (env : FloatEnv) (model : StructuralModel)
    (lcid : String) (cfg : SolverConfig) (res : AnalysisResults)
    (h : analyze_structure env model lcid (some cfg) = Except.ok res)
    (hv : res.isValid = true) :
    ∃ m' : StructuralModel,
      (if cfg.enable_intersection_check then
        preprocess_intersections model = Except.ok m'
       else m' = model) ∧
      ∀ key ∈ (res.frameDetailedResults.getD []).map (·.1),
        ∃ fr ∈ m'.frames, key = toString fr.id := by
  obtain ⟨m', log1, hbranch, htry⟩ := analyze_ok_shape env model lcid (some cfg) res h
  simp only [Option.getD_some] at hbranch htry
  refine ⟨m', ?_, ?_⟩
  · cases hen : cfg.enable_intersection_check with
    | true =>
      simp only [hen, if_true] at hbranch ⊢
      exact hbranch.1
    | false =>
      simp only [hen, Bool.false_eq_true, if_false] at hbranch ⊢
      exact hbranch.1
  · rcases htry with ⟨r, htr, hres⟩ | ⟨e, htr, hres⟩
    · subst hres
      obtain ⟨u, hfdr, -⟩ := tryBlock_ok_shape env m' lcid cfg log1 res htr
      intro key hkey
      rw [hfdr] at hkey
      simp only [Option.getD_some, List.map_map] at hkey
      obtain ⟨x, hx, hxe⟩ := List.mem_map.1 hkey
      obtain ⟨e0, he0, hid, -⟩ := forcePass_entry _ _ _ _ u _ x hx
      obtain ⟨inds, hinds, -⟩ := buildFdrs_entry _ u _ e0 he0
      obtain ⟨fr, hfr, hfid⟩ := meshAll_fmap_keys _ m' _ (e0.1, inds) hinds
      refine ⟨fr, hfr, ?_⟩
      simp only at hfid
      rw [← hxe]
      simp only [Function.comp]
      rw [hid, hfid]
    · subst hres
      simp at hv

/-- C3 counterexample: the crossing-frames model analyzes successfully with
the intersection check enabled, frame id `1` is an original (user-supplied)
frame, yet the string `"1"` is not among the `frameDetailedResults` keys —
the split replaced frame 1 by fresh-id sub-frames. -/
theorem C3_counterexample :
    (1 : Int) ∈ modelCross.frames.map (·.id) ∧
    ((analyze_structure envW modelCross "LC" (some ⟨1, true, false⟩)).toOption.getD
      emptyResults).isValid = true ∧
    "1" ∉ (((analyze_structure envW modelCross "LC" (some ⟨1, true, false⟩)).toOption.getD
      emptyResults).frameDetailedResults.getD []).map (·.1) := by
  refine ⟨by with_unfolding_all decide, by with_unfolding_all rfl,
    by with_unfolding_all decide⟩

/-- C3 witness: the amended key-provenance statement applied at the concrete
crossing-frames run. -/
theorem C3_witness :
    ∃ m' : StructuralModel,
      (if (⟨1, true, false⟩ : SolverConfig).enable_intersection_check then
        preprocess_intersections modelCross = Except.ok m'
       else m' = modelCross) ∧
      ∀ key ∈ ((((analyze_structure envW modelCross "LC"
          (some ⟨1, true, false⟩)).toOption.getD
          emptyResults).frameDetailedResults.getD []).map (·.1)),
        ∃ fr ∈ m'.frames, key = toString fr.id :=
  C3_keys_are_postmodel_ids envW modelCross "LC" ⟨1, true, false⟩
    ((analyze_structure envW modelCross "LC" (some ⟨1, true, false⟩)).toOption.getD
      emptyResults)
    (by with_unfolding_all rfl) (by with_unfolding_all rfl)

/-- The only exception the element-assembly step can raise is the zero-length
error of the local stiffness / transformation construction. -/
theorem assembleOne_error_msg (env : FloatEnv) (m : StructuralModel)
    (sj : List Joint) (idx : List (Int × ℕ)) (us : Bool) (K : MatQ) (fr : Frame)
    (e : String) (h : assembleOne env m sj idx us K fr = Except.error e) :
    e = "Frame element has zero length" := by
  rcases assembleOne_skeleton env m sj idx fr with h1 | ⟨e0, h2⟩ | ⟨a, b, kg, -, -, h3, h4⟩
  · rw [h1 us K] at h; cases h
  · unfold assembleOne at h
    cases hI : dictGet idx fr.jointI with
    | none => rw [hI] at h; cases h
    | some a =>
    cases hJ : dictGet idx fr.jointJ with
    | none => rw [hI, hJ] at h; cases h
    | some b =>
    rw [hI, hJ] at h
    dsimp only at h
    cases hS : sectionFind m fr.sectionId with
    | none => rw [hS] at h; cases h
    | some sec =>
    rw [hS] at h
    dsimp only at h
    cases hM : materialFind m sec.materialId with
    | none => rw [hM] at h; cases h
    | some mat =>
    rw [hM] at h
    dsimp only at h
    by_cases hL : ((sj.getD b dummyJoint).x - (sj.getD a dummyJoint).x) *
          ((sj.getD b dummyJoint).x - (sj.getD a dummyJoint).x) +
        ((sj.getD b dummyJoint).y - (sj.getD a dummyJoint).y) *
          ((sj.getD b dummyJoint).y - (sj.getD a dummyJoint).y) +
        ((sj.getD b dummyJoint).z - (sj.getD a dummyJoint).z) *
          ((sj.getD b dummyJoint).z - (sj.getD a dummyJoint).z) <
        (1 / 1000000 : ℚ) * (1 / 1000000)
    · rw [frame_element_stiffness_err env _ _ sec mat hL] at h
      simp only [Bind.bind, Except.bind] at h
      injection h with h'
      exact h'.symm
    · obtain ⟨p1, p2, p3, p4, p5, p6, p7, p8, hstiff⟩ :=
        frame_element_stiffness_ok env _ _ sec mat hL
      obtain ⟨R, hT⟩ := frame_transformation_matrix_ok env _ _ fr.orientation hL
      rw [hstiff] at h
      simp only [Bind.bind, Except.bind] at h
      rw [hT] at h
      cases h
  · cases us
    · rw [h4 K] at h; cases h
    · rw [h3 K] at h; cases h

/-- The zero-length error of one assembly step does not depend on the
accumulated matrix: if it fires on the zero matrix it fires on any. -/
theorem assembleOne_error_stable (env : FloatEnv) (m : StructuralModel)
    (sj : List Joint) (idx : List (Int × ℕ)) (us : Bool) (fr : Frame)
    (herr : assembleOne env m sj idx us zeroMat fr =
      Except.error "Frame element has zero length") :
    ∀ K, assembleOne env m sj idx us K fr =
      Except.error "Frame element has zero length" := by
  rcases assembleOne_skeleton env m sj idx fr with h1 | ⟨e0, h2⟩ | ⟨a, b, kg, -, -, h3, h4⟩
  · rw [h1 us zeroMat] at herr; cases herr
  · intro K
    have he0 := h2 us zeroMat
    rw [herr] at he0
    injection he0 with h'
    rw [h2 us K, h']
  · cases us
    · rw [h4 zeroMat] at herr; cases herr
    · rw [h3 zeroMat] at herr; cases herr

/-- If any solver frame raises the zero-length error, the whole stiffness
assembly raises it, whatever the accumulated matrix. -/
theorem assembleElements_error_of_mem (env : FloatEnv) (m : StructuralModel)
    (sj : List Joint) (idx : List (Int × ℕ)) (us : Bool) :
    ∀ (frames : List Frame) (fr : Frame), fr ∈ frames →
    assembleOne env m sj idx us zeroMat fr =
      Except.error "Frame element has zero length" →
    ∀ K, assembleElements env m sj idx us frames K =
      Except.error "Frame element has zero length"
  | g :: rest, fr, hmem, herr, K => by
    show (g :: rest).foldlM (assembleOne env m sj idx us) K =
      Except.error "Frame element has zero length"
    simp only [List.foldlM_cons]
    cases hg : assembleOne env m sj idx us K g with
    | error e =>
      have := assembleOne_error_msg env m sj idx us K g e hg
      simp only [Bind.bind, Except.bind, this.symm]
    | ok K' =>
      simp only [Bind.bind, Except.bind]
      rcases List.mem_cons.1 hmem with h | h
      · rw [← h] at hg
        rw [assembleOne_error_stable env m sj idx us fr herr K] at hg
        cases hg
      · exact assembleElements_error_of_mem env m sj idx us rest fr h herr K'

/-- If the stiffness assembly of the meshed model raises, the `try` body
stops at that point and rethrows the message with the log as accumulated. -/
theorem tryBlock_error_of_assemble (env : FloatEnv) (m : StructuralModel)
    (lcid : String) (config : SolverConfig) (log1 : List String) (lc : LoadCase)
    (hlc : m.loadCases.find? (fun x => decide (x.id = lcid)) = some lc)
    (herr : ∀ K, assembleElements env m
      (meshAll (clampSegments config.meshing_segments) m
        (log1 ++ ["Starting analysis..."])).sj
      (meshAll (clampSegments config.meshing_segments) m
        (log1 ++ ["Starting analysis..."])).idx
      (useSparse config ((meshAll (clampSegments config.meshing_segments) m
        (log1 ++ ["Starting analysis..."])).sj.length * 6))
      (meshAll (clampSegments config.meshing_segments) m
        (log1 ++ ["Starting analysis..."])).sf K =
        Except.error "Frame element has zero length") :
    ∃ log5, tryBlock env m lcid config log1 =
      Except.error ("Frame element has zero length", log5) := by
  unfold tryBlock
  rw [hlc]
  dsimp only
  rw [herr zeroMat]
  exact ⟨_, rfl⟩

/-- C4 (amended): a frame whose meshed sub-element has (numerically)
coincident endpoints is not dropped silently — the local stiffness raises
`Frame element has zero length`, the exception is caught by `analyze`, and
the run returns `isValid = false` with `Error: Frame element has zero length`
appended to the log. -/
theorem C4_zero_length_error (env : FloatEnv) (model : StructuralModel)
    (lcid : String) (cfg : SolverConfig) (res : AnalysisResults)
    (hen : cfg.enable_intersection_check = false)
    (h : analyze_structure env model lcid (some cfg) = Except.ok res)
    (hlc : (model.loadCases.find? (fun x => decide (x.id = lcid))).isSome)
    (hzero : ∃ fr ∈ (meshAll (clampSegments cfg.meshing_segments) model
        (["Skipping intersection detection (disabled in config)"] ++
          ["Starting analysis..."])).sf,
      assembleOne env model
        (meshAll (clampSegments cfg.meshing_segments) model
          (["Skipping intersection detection (disabled in config)"] ++
            ["Starting analysis..."])).sj
        (meshAll (clampSegments cfg.meshing_segments) model
          (["Skipping intersection detection (disabled in config)"] ++
            ["Starting analysis..."])).idx
        (useSparse cfg ((meshAll (clampSegments cfg.meshing_segments) model
          (["Skipping intersection detection (disabled in config)"] ++
            ["Starting analysis..."])).sj.length * 6)) zeroMat fr =
        Except.error "Frame element has zero length") :
    res.isValid = false ∧ "Error: Frame element has zero length" ∈ res.log := by
  obtain ⟨m', log1, hbranch, htry⟩ := analyze_ok_shape env model lcid (some cfg) res h
  simp only [Option.getD_some, hen, Bool.false_eq_true, if_false] at hbranch htry
  obtain ⟨hm', hlog1⟩ := hbranch
  rw [hm'] at htry
  subst hlog1
  obtain ⟨lc, hlcs⟩ := Option.isSome_iff_exists.1 hlc
  obtain ⟨fr, hmem, herr1⟩ := hzero
  obtain ⟨log5, htb⟩ := tryBlock_error_of_assemble env model lcid cfg
    ["Skipping intersection detection (disabled in config)"] lc hlcs
    (fun K => assembleElements_error_of_mem env model _ _ _ _ fr hmem herr1 K)
  rcases htry with ⟨r, htr, hres⟩ | ⟨e, htr, hres⟩
  · rw [htb] at htr
    cases htr
  · rw [htb] at htr
    injection htr with h'
    subst hres
    rw [← h']
    refine ⟨rfl, ?_⟩
    apply List.mem_append_right
    simp only [List.mem_singleton]
    rfl

/-- C4 counterexample: the coincident-endpoint model does not complete with
`isValid = true` — the run returns `isValid = false` and logs the zero-length
error instead of dropping the frame silently. -/
theorem C4_counterexample :
    ((analyze_structure envW modelZeroW "LC" (some ⟨1, false, false⟩)).toOption.getD
      emptyResults).isValid = false ∧
    "Error: Frame element has zero length" ∈
      ((analyze_structure envW modelZeroW "LC" (some ⟨1, false, false⟩)).toOption.getD
        emptyResults).log :=
  ⟨by with_unfolding_all rfl, by with_unfolding_all decide⟩

/-- C4 witness: the amended zero-length statement applied at the concrete
coincident-endpoint run (the single meshed sub-frame raises). -/
theorem C4_witness :
    ((analyze_structure envW modelZeroW "LC" (some ⟨1, false, false⟩)).toOption.getD
      emptyResults).isValid = false ∧
    "Error: Frame element has zero length" ∈
      ((analyze_structure envW modelZeroW "LC" (some ⟨1, false, false⟩)).toOption.getD
        emptyResults).log := by
  have h := C4_zero_length_error envW modelZeroW "LC" ⟨1, false, false⟩
    ((analyze_structure envW modelZeroW "LC" (some ⟨1, false, false⟩)).toOption.getD
      emptyResults)
    (by with_unfolding_all rfl)
    (by with_unfolding_all rfl)
    (by with_unfolding_all rfl)
    ⟨⟨-1, 1, 2, some "S", 0, 0, 0⟩, by with_unfolding_all decide,
      by with_unfolding_all rfl⟩
  exact h

/-- Appending to a string keeps its leading character. -/
theorem str_append_data (p x : String) (c : Char) (rest : List Char)
    (hp : p.data = c :: rest) : (p ++ x).data = c :: (rest ++ x.data) := by
  rw [String.data_append, hp]
  rfl

/-- A string whose first character is not `W` is not the singularity
warning. -/
theorem ne_warning_of_data_cons (s : String) (c : Char) (rest : List Char)
    (h : s.data = c :: rest) (hc : c ≠ 'W') : s ≠ singularWarning := by
  intro he
  rw [he] at h
  have h3 : singularWarning.data.head? = some 'W' := rfl
  rw [h] at h3
  simp only [List.head?_cons] at h3
  injection h3 with h4
  exact hc h4

/-- A list extended by one non-warning entry still avoids the warning. -/
theorem notMem_append_singleton (a s : String) (l : List String) (h : a ∉ l)
    (hs : s ≠ a) : a ∉ l ++ [s] := by
  intro hmem
  rcases List.mem_append.1 hmem with h1 | h1
  · exact h h1
  · exact hs (List.mem_singleton.1 h1).symm

/-- Neither branch of a two-way choice equal to the target makes the choice
equal to it. -/
theorem ite_ne_of_ne {c : Prop} [Decidable c] {x y z : String} (hx : x ≠ z)
    (hy : y ≠ z) : (if c then x else y) ≠ z := by
  split
  · exact hx
  · exact hy

/-- The mesh-failure log entry is not the singularity warning. -/
theorem invalid_joints_entry_ne (a : String) :
    "Error: Invalid joints for frame " ++ a ≠ singularWarning :=
  ne_warning_of_data_cons _ 'E' _
    (str_append_data _ _ _ _
      (rfl : ("Error: Invalid joints for frame " : String).data =
        'E' :: ("rror: Invalid joints for frame " : String).data))
    (by decide)

/-- The caught-exception log entry is not the singularity warning. -/
theorem error_entry_ne (a : String) :
    "Error: " ++ a ≠ singularWarning :=
  ne_warning_of_data_cons _ 'E' _
    (str_append_data _ _ _ _
      (rfl : ("Error: " : String).data = 'E' :: ("rror: " : String).data))
    (by decide)

/-- The mesh-summary log entry is not the singularity warning. -/
theorem meshed_entry_ne (a b c d : String) :
    "Meshed model: " ++ a ++ " -> " ++ b ++ " joints, " ++ c ++ " -> " ++ d ++
      " elements." ≠ singularWarning :=
  ne_warning_of_data_cons _ 'M' _
    (str_append_data _ _ _ _ (str_append_data _ _ _ _ (str_append_data _ _ _ _
      (str_append_data _ _ _ _ (str_append_data _ _ _ _ (str_append_data _ _ _ _
        (str_append_data _ _ _ _ (str_append_data _ _ _ _
          (rfl : ("Meshed model: " : String).data =
            'M' :: ("eshed model: " : String).data)))))))))
    (by decide)

/-- The DOF-count log entry is not the singularity warning. -/
theorem sysdof_entry_ne (a : String) :
    "System DOF: " ++ a ≠ singularWarning :=
  ne_warning_of_data_cons _ 'S' _
    (str_append_data _ _ _ _
      (rfl : ("System DOF: " : String).data =
        'S' :: ("ystem DOF: " : String).data))
    (by decide)

/-- The sparse-choice log entry is not the singularity warning. -/
theorem sparse_entry_ne (a : String) :
    "Using sparse matrix solver (DOF=" ++ a ++ ")" ≠ singularWarning :=
  ne_warning_of_data_cons _ 'U' _
    (str_append_data _ _ _ _ (str_append_data _ _ _ _
      (rfl : ("Using sparse matrix solver (DOF=" : String).data =
        'U' :: ("sing sparse matrix solver (DOF=" : String).data)))
    (by decide)

/-- The dense-choice log entry is not the singularity warning. -/
theorem dense_entry_ne (a : String) :
    "Using dense matrix solver (DOF=" ++ a ++ ")" ≠ singularWarning :=
  ne_warning_of_data_cons _ 'U' _
    (str_append_data _ _ _ _ (str_append_data _ _ _ _
      (rfl : ("Using dense matrix solver (DOF=" : String).data =
        'U' :: ("sing dense matrix solver (DOF=" : String).data)))
    (by decide)

/-- The solve-phase log entry is not the singularity warning. -/
theorem solving_entry_ne (a : String) :
    "Solving system... (Free DOF: " ++ a ++ ")" ≠ singularWarning :=
  ne_warning_of_data_cons _ 'S' _
    (str_append_data _ _ _ _ (str_append_data _ _ _ _
      (rfl : ("Solving system... (Free DOF: " : String).data =
        'S' :: ("olving system... (Free DOF: " : String).data)))
    (by decide)

/-- The load-case-missing message is not the singularity warning. -/
theorem loadcase_entry_ne (a : String) :
    "Load case " ++ a ++ " not found" ≠ singularWarning :=
  ne_warning_of_data_cons _ 'L' _
    (str_append_data _ _ _ _ (str_append_data _ _ _ _
      (rfl : ("Load case " : String).data = 'L' :: ("oad case " : String).data)))
    (by decide)

/-- The interior-node fold never writes to the log. -/
theorem meshInner_fold_log (startJ endJ : Joint) (fr : Frame) (S : ℕ)
    (l : List ℕ) : ∀ (st : MeshSt) (prev : ℕ) (inds : List ℕ),
    (l.foldl (meshInner startJ endJ fr S) (st, prev, inds)).1.log = st.log := by
  induction l with
  | nil => intro st prev inds; rfl
  | cons i t ih => intro st prev inds; rw [List.foldl_cons]; exact ih _ _ _

/-- Meshing one frame either leaves the log unchanged or appends the
invalid-joints message. -/
theorem meshFrame_log (S : ℕ) (st : MeshSt) (fr : Frame) :
    (meshFrame S st fr).log = st.log ∨
    (meshFrame S st fr).log =
      st.log ++ ["Error: Invalid joints for frame " ++ toString fr.id] := by
  unfold meshFrame
  cases hI : dictGet st.idx fr.jointI with
  | none => right; rfl
  | some a =>
    cases hJ : dictGet st.idx fr.jointJ with
    | none => right; rfl
    | some b =>
      left
      simp only
      rw [meshInner_fold_log]

/-- The meshing loop introduces no singularity warning into the log. -/
theorem meshAll_log_no_warning (S : ℕ) (m : StructuralModel)
    (log0 : List String) (h0 : singularWarning ∉ log0) :
    singularWarning ∉ (meshAll S m log0).log := by
  unfold meshAll
  refine foldl_preserves (fun st : MeshSt => singularWarning ∉ st.log)
    (meshFrame S) (fun st fr hst => ?_) m.frames _ h0
  rcases meshFrame_log S st fr with h | h
  · rw [h]; exact hst
  · rw [h]
    exact notMem_append_singleton _ _ _ hst (invalid_joints_entry_ne _)

/-- The `try` body never places the singularity warning in the log — it is
printed to standard output only — whether the body completes or raises. -/
theorem tryBlock_log_no_warning (env : FloatEnv) (m : StructuralModel)
    (lcid : String) (config : SolverConfig) (log1 : List String)
    (h0 : singularWarning ∉ log1) :
    (∀ res, tryBlock env m lcid config log1 = Except.ok res →
      singularWarning ∉ res.log) ∧
    (∀ e, tryBlock env m lcid config log1 = Except.error e →
      singularWarning ∉ e.2) := by
  have h2 : singularWarning ∉ log1 ++ ["Starting analysis..."] :=
    notMem_append_singleton _ _ _ h0 (by decide)
  have hmesh := meshAll_log_no_warning (clampSegments config.meshing_segments) m
    (log1 ++ ["Starting analysis..."]) h2
  constructor
  · intro res h
    unfold tryBlock at h
    split at h
    · cases h
    · dsimp only at h
      split at h
      · cases h
      · split at h
        · cases h
        · injection h with h'
          subst h'
          simp only
          refine notMem_append_singleton _ _ _ (notMem_append_singleton _ _ _
            (notMem_append_singleton _ _ _ (notMem_append_singleton _ _ _
              (notMem_append_singleton _ _ _ (notMem_append_singleton _ _ _
                hmesh (meshed_entry_ne _ _ _ _)) (sysdof_entry_ne _))
                (ite_ne_of_ne (sparse_entry_ne _) (dense_entry_ne _)))
              (solving_entry_ne _)) (by decide)) (by decide)
  · intro e h
    unfold tryBlock at h
    split at h
    · injection h with h'
      subst h'
      exact h2
    · dsimp only at h
      split at h
      · injection h with h'
        subst h'
        simp only
        refine notMem_append_singleton _ _ _ (notMem_append_singleton _ _ _
          (notMem_append_singleton _ _ _ hmesh (meshed_entry_ne _ _ _ _))
          (sysdof_entry_ne _)) (ite_ne_of_ne (sparse_entry_ne _) (dense_entry_ne _))
      · split at h
        · injection h with h'
          subst h'
          simp only
          refine notMem_append_singleton _ _ _ (notMem_append_singleton _ _ _
            (notMem_append_singleton _ _ _ hmesh (meshed_entry_ne _ _ _ _))
            (sysdof_entry_ne _)) (ite_ne_of_ne (sparse_entry_ne _) (dense_entry_ne _))
        · cases h

/-- C5 (amended): when the direct factorization reports singularity the
solver does fall back to the least-squares solution and the analysis result
stays valid, but the warning is only printed to standard output — it is never
placed in the `log` field of the returned `AnalysisResults`. -/
theorem C5_singular_fallback_warning_not_logged :
    (∀ (env : FloatEnv) (A : MatQ) (n : ℕ) (b : VecQ),
      env.directSolve A n b = none →
      solve_linear_system env A n b = env.lstsq A n b) ∧
    (∀ (env : FloatEnv) (model : StructuralModel) (lcid : String)
      (cfgO : Option SolverConfig) (res : AnalysisResults),
      analyze_structure env model lcid cfgO = Except.ok res →
      singularWarning ∉ res.log) := by
  constructor
  · intro env A n b hnone
    unfold solve_linear_system
    rw [hnone]
  · intro env model lcid cfgO res h
    obtain ⟨m', log1, hbranch, htry⟩ := analyze_ok_shape env model lcid cfgO res h
    have h0 : singularWarning ∉ log1 := by
      split at hbranch
      · rw [hbranch.2]; decide
      · rw [hbranch.2]; decide
    rcases htry with ⟨r, htr, hres⟩ | ⟨e, htr, hres⟩
    · subst hres
      exact (tryBlock_log_no_warning env m' lcid (cfgO.getD {}) log1 h0).1 res htr
    · subst hres
      simp only
      exact notMem_append_singleton _ _ _
        ((tryBlock_log_no_warning env m' lcid (cfgO.getD {}) log1 h0).2 e htr)
        (error_entry_ne _)

/-- C5 counterexample: a run whose direct factorization always fails as
singular (the oracle returns `none`, modelling `LinAlgError`) completes with
`isValid = true` — yet the singularity warning is nowhere in the returned
log, contradicting the claim that it is appended to the log field. -/
theorem C5_counterexample :
    (∀ (A : MatQ) (n : ℕ) (b : VecQ), envSing.directSolve A n b = none) ∧
    ((analyze_structure envSing modelNoSec "LC" (some ⟨1, false, false⟩)).toOption.getD
      emptyResults).isValid = true ∧
    singularWarning ∉
      ((analyze_structure envSing modelNoSec "LC" (some ⟨1, false, false⟩)).toOption.getD
        emptyResults).log :=
  ⟨fun _ _ _ => rfl, by with_unfolding_all rfl, by with_unfolding_all decide⟩

/-- C5 witness: the amended statement applied at the always-singular oracle
and the concrete beam run. -/
theorem C5_witness :
    solve_linear_system envSing zeroMat 3 zeroVec = envSing.lstsq zeroMat 3 zeroVec ∧
    singularWarning ∉
      ((analyze_structure envSing modelNoSec "LC" (some ⟨2, false, false⟩)).toOption.getD
        emptyResults).log := by
  have h := C5_singular_fallback_warning_not_logged
  exact ⟨h.1 envSing zeroMat 3 zeroVec rfl,
    h.2 envSing modelNoSec "LC" (some ⟨2, false, false⟩)
      ((analyze_structure envSing modelNoSec "LC" (some ⟨2, false, false⟩)).toOption.getD
        emptyResults)
      (by with_unfolding_all rfl)⟩

/-- The element-wise displacement loop succeeds when the incoming list does
not outrun the target. -/
theorem zipAddJD_ok (target detail : List JointDisplacement) (scale : ℚ)
    (h : detail.length ≤ target.length) :
    zipAddJD target detail scale = Except.ok
      (List.zipWith (fun t d => addScaledJD t d scale) target detail ++
        target.drop detail.length) := by
  unfold zipAddJD
  rw [if_neg (by omega)]

/-- The element-wise displacement loop raises `IndexError` when the incoming
list is longer than the target. -/
theorem zipAddJD_err (target detail : List JointDisplacement) (scale : ℚ)
    (h : target.length < detail.length) :
    zipAddJD target detail scale = Except.error "list index out of range" := by
  unfold zipAddJD
  rw [if_pos (by omega)]

/-- The element-wise force loop succeeds when the incoming list does not
outrun the target. -/
theorem zipAddFF_ok (target detail : List FrameForces) (scale : ℚ)
    (h : detail.length ≤ target.length) :
    zipAddFF target detail scale = Except.ok
      (List.zipWith (fun t f => addScaledFF t f scale) target detail ++
        target.drop detail.length) := by
  unfold zipAddFF
  rw [if_neg (by omega)]


/-- Folding a single fresh detailed entry initialises the zero target from
its own shapes and accumulates without error. -/
theorem combineDetailInto_single_new (key : String) (k : Int)
    (hk : key.toInt? = some k) (d : DetailedFrameResult) (scale : ℚ) :
    combineDetailInto [] [(key, d)] scale = Except.ok [(k,
      ⟨d.stations,
        List.zipWith (fun t dd => addScaledJD t dd scale)
          (d.displacements.map (fun jd => zeroJD jd.jointId)) d.displacements,
        List.zipWith (fun t f => addScaledFF t f scale)
          (List.replicate d.forces.length (⟨0, 0, 0, 0, 0, 0⟩ : FrameForces))
          d.forces⟩)] := by
  have hdrop : List.drop d.displacements.length
      (List.map (fun jd => zeroJD jd.jointId) d.displacements) = [] := by
    have h := List.drop_length (List.map (fun jd => zeroJD jd.jointId) d.displacements)
    rwa [List.length_map] at h
  unfold combineDetailInto
  simp only [List.foldlM_cons, List.foldlM_nil, hk, Bind.bind, Except.bind]
  rw [zipAddJD_ok _ _ _ (by simp [dictGet, dictInsert])]
  rw [zipAddFF_ok _ _ _ (by simp [dictGet, dictInsert])]
  simp [dictGet, dictInsert, hdrop, pure, Except.pure]

/-- Folding a detailed entry whose displacement list is longer than the
already-initialised target raises the Python `IndexError`. -/
theorem combineDetailInto_overflow (key : String) (k : Int)
    (hk : key.toInt? = some k) (fm : List (Int × DetailedFrameResult))
    (D1 dB : DetailedFrameResult) (hget : dictGet fm k = some D1)
    (hlen : D1.displacements.length < dB.displacements.length) (scale : ℚ) :
    combineDetailInto fm [(key, dB)] scale =
      Except.error "list index out of range" := by
  unfold combineDetailInto
  simp only [List.foldlM_cons, List.foldlM_nil, hk, Bind.bind, Except.bind, hget,
    Option.isSome_some, if_true, Option.getD_some]
  rw [zipAddJD_err _ _ _ hlen]

/-- C6 (amended): combining two cases whose detailed results for the same
frame key have the later case longer than the first-seen one raises the
Python `IndexError`: the combination returns `isValid = false` with
`Error: list index out of range` in the log (there is no
`IncompatibleStations` message; and a later *shorter* case combines
silently instead of failing). -/
theorem C6_incompatible_stations_index_error (env : FloatEnv)
    (combId combName cidA cidB : String) (hne : cidA ≠ cidB)
    (key : String) (k : Int) (hk : key.toInt? = some k)
    (dA dB : DetailedFrameResult) (resA resB : AnalysisResults)
    (hA : resA.frameDetailedResults = some [(key, dA)])
    (hB : resB.frameDetailedResults = some [(key, dB)])
    (hlen : dA.displacements.length < dB.displacements.length)
    (sA sB : ℚ) :
    (combine_results env ⟨combId, combName, [⟨cidA, sA⟩, ⟨cidB, sB⟩]⟩
      [(cidA, resA), (cidB, resB)]).isValid = false ∧
    "Error: list index out of range" ∈
      (combine_results env ⟨combId, combName, [⟨cidA, sA⟩, ⟨cidB, sB⟩]⟩
        [(cidA, resA), (cidB, resB)]).log := by
  have hgA : dictGet [(cidA, resA), (cidB, resB)] cidA = some resA := by
    unfold dictGet
    rw [List.find?_cons_of_pos _ (by simp)]
    rfl
  have hgB : dictGet [(cidA, resA), (cidB, resB)] cidB = some resB := by
    unfold dictGet
    rw [List.find?_cons_of_neg _ (by simp [hne]), List.find?_cons_of_pos _ (by simp)]
    rfl
  have hD1 := combineDetailInto_single_new key k hk dA sA
  have hget : dictGet [(k,
      (⟨dA.stations,
        List.zipWith (fun t dd => addScaledJD t dd sA)
          (dA.displacements.map (fun jd => zeroJD jd.jointId)) dA.displacements,
        List.zipWith (fun t f => addScaledFF t f sA)
          (List.replicate dA.forces.length (⟨0, 0, 0, 0, 0, 0⟩ : FrameForces))
          dA.forces⟩ : DetailedFrameResult))] k = some
      (⟨dA.stations,
        List.zipWith (fun t dd => addScaledJD t dd sA)
          (dA.displacements.map (fun jd => zeroJD jd.jointId)) dA.displacements,
        List.zipWith (fun t f => addScaledFF t f sA)
          (List.replicate dA.forces.length (⟨0, 0, 0, 0, 0, 0⟩ : FrameForces))
          dA.forces⟩ : DetailedFrameResult) := by
    unfold dictGet
    rw [List.find?_cons_of_pos _ (by simp)]
    rfl
  have hov := combineDetailInto_overflow key k hk _ _ dB hget
    (by
      simp only [List.length_zipWith, List.length_map, min_self]
      exact hlen) sB
  constructor
  · unfold combine_results
    simp only [List.foldlM_cons, List.foldlM_nil, Bind.bind, Except.bind, hgA, hgB,
      Option.isSome_some, if_true, Option.getD_some, hA, hB, hD1, hov]
    rfl
  · unfold combine_results
    simp only [List.foldlM_cons, List.foldlM_nil, Bind.bind, Except.bind, hgA, hgB,
      Option.isSome_some, if_true, Option.getD_some, hA, hB, hD1, hov]
    exact List.mem_append_right _ (by decide)

/-- C6 counterexample: two cases with different station counts where the
*later* one is shorter do not fail — the combination silently returns
`isValid = true` with no index error in the log, contradicting the claim
that any length mismatch fails. -/
theorem C6_counterexample :
    dfrThree.stations.length ≠ dfrTwo.stations.length ∧
    (combine_results envW ⟨"CMB", "Combo", [⟨"A", 1⟩, ⟨"B", 1⟩]⟩
      [("A", resultsWith "A" dfrThree), ("B", resultsWith "B" dfrTwo)]).isValid
      = true ∧
    "Error: list index out of range" ∉
      (combine_results envW ⟨"CMB", "Combo", [⟨"A", 1⟩, ⟨"B", 1⟩]⟩
        [("A", resultsWith "A" dfrThree), ("B", resultsWith "B" dfrTwo)]).log :=
  ⟨by decide, by with_unfolding_all rfl, by with_unfolding_all decide⟩

/-- C6 witness: the amended index-error statement applied at a concrete
two-case combination whose second detailed result is longer. -/
theorem C6_witness :
    (combine_results envW ⟨"C2W", "ComboW", [⟨"A", 1⟩, ⟨"B", 1⟩]⟩
      [("A", resultsWith "A" dfrTwo), ("B", resultsWith "B" dfrThree)]).isValid
      = false ∧
    "Error: list index out of range" ∈
      (combine_results envW ⟨"C2W", "ComboW", [⟨"A", 1⟩, ⟨"B", 1⟩]⟩
        [("A", resultsWith "A" dfrTwo), ("B", resultsWith "B" dfrThree)]).log :=
  C6_incompatible_stations_index_error envW "C2W" "ComboW" "A" "B" (by decide)
    "1" 1 (by with_unfolding_all rfl) dfrTwo dfrThree
    (resultsWith "A" dfrTwo) (resultsWith "B" dfrThree)
    (by with_unfolding_all rfl) (by with_unfolding_all rfl)
    (by with_unfolding_all decide) 1 1
